import Mathlib

/-!
Verification of the block-to-action normalizer.

A shallow embedding of `indexer/events/blocks/utils/block_tree_serializer.py`:
the stage that converts an upstream-classified operation `Block` into a
canonical `Action` record.  Python values are translated as follows:

* `str` is `String`; `bytes` is `List Nat` (each entry a byte value);
  Python `int` is `Int` (unbounded, as in Python).
* A nullable value is `Option`; a dictionary key that may be absent is an
  outer `Option` (so `Option (Option _)` distinguishes an absent key from a
  key bound to `None`).
* Code that can raise returns `Except String _`; the string names the
  exception the interpreter would raise.
* `list(set(xs))` and `set.add` deduplicate with an implementation-defined
  iteration order that is fixed for a given process; they are modelled by
  `pySetList` and `pySetAdd`, which deduplicate preserving a deterministic
  order.
* `logger.warning`, `logging.info` and `print` emit diagnostics; successful
  paths return them as a `List String` alongside the `Action`.

The input-side classes (`Block`, `EventNode`, `AccountId`, `Asset`,
`Amount`, messages and transactions) are defined in modules of this
repository that only this serializer consumes here; their shapes are taken
from the attribute and key accesses the serializer performs and from the
data-model section of the design document (an event node exposes a logical
time, an optional transaction hash, an owning account and an optional
inbound message, or is a tick-tock transaction).  The payload union below
covers the operation types the checked claims exercise; the source's
remaining variant normalizers touch the same classes of fields and none of
them reads or writes the transaction-hash or account aggregates.
-/


/-! Byte-level primitives: bytes are `Nat` values below 256, strings of bytes are `List Nat`.
These model Python's `hashlib.sha256`, `base64.b64encode`, `str.encode()` and
`bytes.decode("utf-8")` as used by the block-to-action serializer. -/

/-- The 32-bit word modulus. -/
def w32 : Nat := 4294967296

/-- Right rotation of a 32-bit word by `n` bits. -/
def rotr32 (n x : Nat) : Nat := ((x >>> n) ||| (x <<< (32 - n))) % w32

/-- SHA-256 `Ch` function; complement taken against the 32-bit mask. -/
def shaCh (x y z : Nat) : Nat := (x &&& y) ^^^ ((x ^^^ 4294967295) &&& z)

/-- SHA-256 `Maj` function. -/
def shaMaj (x y z : Nat) : Nat := (x &&& y) ^^^ (x &&& z) ^^^ (y &&& z)

def bsig0 (x : Nat) : Nat := rotr32 2 x ^^^ rotr32 13 x ^^^ rotr32 22 x
def bsig1 (x : Nat) : Nat := rotr32 6 x ^^^ rotr32 11 x ^^^ rotr32 25 x
def ssig0 (x : Nat) : Nat := rotr32 7 x ^^^ rotr32 18 x ^^^ (x >>> 3)
def ssig1 (x : Nat) : Nat := rotr32 17 x ^^^ rotr32 19 x ^^^ (x >>> 10)

/-- The 64 SHA-256 round constants (FIPS 180-4 §4.2.2). -/
def shaK : List Nat :=
  [1116352408, 1899447441, 3049323471, 3921009573,
   961987163, 1508970993, 2453635748, 2870763221,
   3624381080, 310598401, 607225278, 1426881987,
   1925078388, 2162078206, 2614888103, 3248222580,
   3835390401, 4022224774, 264347078, 604807628,
   770255983, 1249150122, 1555081692, 1996064986,
   2554220882, 2821834349, 2952996808, 3210313671,
   3336571891, 3584528711, 113926993, 338241895,
   666307205, 773529912, 1294757372, 1396182291,
   1695183700, 1986661051, 2177026350, 2456956037,
   2730485921, 2820302411, 3259730800, 3345764771,
   3516065817, 3600352804, 4094571909, 275423344,
   430227734, 506948616, 659060556, 883997877,
   958139571, 1322822218, 1537002063, 1747873779,
   1955562222, 2024104815, 2227730452, 2361852424,
   2428436474, 2756734187, 3204031479, 3329325298]

/-- Eight-word SHA-256 chaining state. -/
structure ShaState where
  a : Nat
  b : Nat
  c : Nat
  d : Nat
  e : Nat
  f : Nat
  g : Nat
  h : Nat
deriving DecidableEq

/-- Initial SHA-256 hash values (FIPS 180-4 §5.3.3). -/
def shaInit : ShaState :=
  ⟨1779033703, 3144134277, 1013904242, 2773480762,
   1359893119, 2600822924, 528734635, 1541459225⟩

/-- One SHA-256 compression round for schedule word `w` and constant `k`. -/
def shaRound (st : ShaState) (wk : Nat × Nat) : ShaState :=
  let t1 := (st.h + bsig1 st.e + shaCh st.e st.f st.g + wk.2 + wk.1) % w32
  let t2 := (bsig0 st.a + shaMaj st.a st.b st.c) % w32
  ⟨(t1 + t2) % w32, st.a, st.b, st.c, (st.d + t1) % w32, st.e, st.f, st.g⟩

/-- Big-endian bytes (most significant first), `k` bytes of `n`. -/
def natToBytesBE : Nat → Nat → List Nat
  | 0, _ => []
  | k + 1, n => natToBytesBE k (n >>> 8) ++ [n % 256]

/-- Group bytes into big-endian 32-bit words (4 bytes per word). -/
def bytesToWords : List Nat → List Nat
  | b0 :: b1 :: b2 :: b3 :: rest =>
      (b0 <<< 24 ||| b1 <<< 16 ||| b2 <<< 8 ||| b3) :: bytesToWords rest
  | _ => []

/-- Extend the message schedule; `acc` holds the words produced so far, newest first. -/
def shaExtend : Nat → List Nat → List Nat
  | 0, acc => acc
  | fuel + 1, acc =>
      let g := fun k => acc.getD k 0
      let nw := (g 15 + ssig0 (g 14) + g 6 + ssig1 (g 1)) % w32
      shaExtend fuel (nw :: acc)

/-- Full 64-word message schedule of one 64-byte chunk. -/
def shaSchedule (chunk : List Nat) : List Nat :=
  (shaExtend 48 (bytesToWords chunk).reverse).reverse

/-- Compress one 64-byte chunk into the chaining state. -/
def shaChunk (st : ShaState) (chunk : List Nat) : ShaState :=
  let fin := ((shaSchedule chunk).zip shaK).foldl shaRound st
  ⟨(st.a + fin.a) % w32, (st.b + fin.b) % w32, (st.c + fin.c) % w32, (st.d + fin.d) % w32,
   (st.e + fin.e) % w32, (st.f + fin.f) % w32, (st.g + fin.g) % w32, (st.h + fin.h) % w32⟩

/-- SHA-256 padding: `0x80`, zeros to 56 mod 64, then the 64-bit big-endian bit length. -/
def shaPad (msg : List Nat) : List Nat :=
  msg ++ [0x80] ++ List.replicate ((64 + 56 - (msg.length + 1) % 64) % 64) 0
      ++ natToBytesBE 8 (msg.length * 8)

/-- Split into 64-byte chunks; fuel bounds the recursion by the list length. -/
def chunks64 : Nat → List Nat → List (List Nat)
  | 0, _ => []
  | _, [] => []
  | fuel + 1, l => l.take 64 :: chunks64 fuel (l.drop 64)

/-- SHA-256 digest (32 bytes) of a byte string. -/
def sha256 (msg : List Nat) : List Nat :=
  let padded := shaPad msg
  let fin := (chunks64 padded.length padded).foldl shaChunk shaInit
  natToBytesBE 4 fin.a ++ natToBytesBE 4 fin.b ++ natToBytesBE 4 fin.c ++ natToBytesBE 4 fin.d ++
  natToBytesBE 4 fin.e ++ natToBytesBE 4 fin.f ++ natToBytesBE 4 fin.g ++ natToBytesBE 4 fin.h

/-- The standard base64 alphabet. -/
def base64Alphabet : List Char :=
  "ABCDEFGHIJKLMNOPQRSTUVWXYZabcdefghijklmnopqrstuvwxyz0123456789+/".data

def base64Digit (n : Nat) : Char := base64Alphabet.getD n 'A'

/-- Base64 encoding with `=` padding, as `base64.b64encode(...).decode()` produces. -/
def base64Chars : List Nat → List Char
  | b0 :: b1 :: b2 :: rest =>
      base64Digit (b0 >>> 2) :: base64Digit ((b0 % 4) <<< 4 ||| (b1 >>> 4)) ::
      base64Digit ((b1 % 16) <<< 2 ||| (b2 >>> 6)) :: base64Digit (b2 % 64) :: base64Chars rest
  | [b0, b1] =>
      [base64Digit (b0 >>> 2), base64Digit ((b0 % 4) <<< 4 ||| (b1 >>> 4)),
       base64Digit ((b1 % 16) <<< 2), Char.ofNat 61]
  | [b0] =>
      [base64Digit (b0 >>> 2), base64Digit ((b0 % 4) <<< 4), Char.ofNat 61, Char.ofNat 61]
  | [] => []

def base64Encode (bs : List Nat) : String := String.mk (base64Chars bs)

/-- UTF-8 encoding of one character. -/
def utf8EncodeChar (c : Char) : List Nat :=
  let n := c.toNat
  if n < 0x80 then [n]
  else if n < 0x800 then [0xC0 + (n >>> 6), 0x80 + n % 64]
  else if n < 0x10000 then [0xE0 + (n >>> 12), 0x80 + (n >>> 6) % 64, 0x80 + n % 64]
  else [0xF0 + (n >>> 18), 0x80 + (n >>> 12) % 64, 0x80 + (n >>> 6) % 64, 0x80 + n % 64]

/-- UTF-8 encoding of a string, as Python's `str.encode()`. -/
def utf8Encode (s : String) : List Nat :=
  s.data.foldr (fun c acc => utf8EncodeChar c ++ acc) []

def utf8IsCont (b : Nat) : Bool := 0x80 ≤ b && b < 0xC0

/-- Strict UTF-8 decoding, as Python's `bytes.decode("utf-8")`: rejects continuation
errors, overlong forms, surrogates, and code points above `0x10FFFF`. -/
def utf8DecodeChars : List Nat → Option (List Char)
  | [] => some []
  | b :: rest =>
    if b < 0x80 then (utf8DecodeChars rest).map (fun cs => Char.ofNat b :: cs)
    else if b < 0xC2 then none
    else if b < 0xE0 then
      match rest with
      | b1 :: rest2 =>
        if utf8IsCont b1 then
          (utf8DecodeChars rest2).map (fun cs => Char.ofNat ((b - 0xC0) * 64 + (b1 - 0x80)) :: cs)
        else none
      | [] => none
    else if b < 0xF0 then
      match rest with
      | b1 :: b2 :: rest3 =>
        let cp := (b - 0xE0) * 4096 + (b1 - 0x80) * 64 + (b2 - 0x80)
        if utf8IsCont b1 && utf8IsCont b2 && decide (0x800 ≤ cp) &&
            !(decide (0xD800 ≤ cp) && decide (cp ≤ 0xDFFF)) then
          (utf8DecodeChars rest3).map (fun cs => Char.ofNat cp :: cs)
        else none
      | _ => none
    else if b < 0xF5 then
      match rest with
      | b1 :: b2 :: b3 :: rest4 =>
        let cp := (b - 0xF0) * 262144 + (b1 - 0x80) * 4096 + (b2 - 0x80) * 64 + (b3 - 0x80)
        if utf8IsCont b1 && utf8IsCont b2 && utf8IsCont b3 &&
            decide (0x10000 ≤ cp) && decide (cp ≤ 0x10FFFF) then
          (utf8DecodeChars rest4).map (fun cs => Char.ofNat cp :: cs)
        else none
      | _ => none
    else none

def utf8Decode (bs : List Nat) : Option String :=
  (utf8DecodeChars bs).map String.mk


/-! ## Python container helpers -/

/-- Model of Python's `list(set(xs))`: deduplication with a deterministic order
standing in for the (process-fixed, implementation-defined) set iteration order. -/
def pySetList {α : Type} [DecidableEq α] (xs : List α) : List α := xs.dedup

/-- Model of Python's `set.add` on a set carried as a duplicate-free list. -/
def pySetAdd {α : Type} [DecidableEq α] (xs : List α) (x : α) : List α :=
  if x ∈ xs then xs else xs ++ [x]

namespace Indexer

/-! ## Input data model (`Block` and its constituents) -/

/-- An on-chain account reference; `as_str` renders its canonical string form. -/
structure AccountId where
  addr : String
deriving DecidableEq

def AccountId.as_str (a : AccountId) : String := a.addr

/-- An asset reference: the chain's native currency (`is_ton`) or a token whose
master contract is `jetton_address` (which the upstream may leave unset). -/
structure Asset where
  is_ton : Bool
  jetton_address : Option AccountId
deriving DecidableEq

/-- An argument acceptable to the address resolver `_addr`: either an
`AccountId` or an `Asset` (the `None` case is the surrounding `Option`). -/
inductive AddrRef where
  | account (a : AccountId)
  | asset (a : Asset)
deriving DecidableEq

/-- An amount wrapper exposing `value`. -/
structure Amount where
  value : Int
deriving DecidableEq

/-- The ledger transaction holding a message; exposes its `account`. -/
structure Transaction where
  account : String
deriving DecidableEq

/-- An inbound message attached to an event node. -/
structure Message where
  msg_hash : String
  trace_id : String
  transaction : Transaction
deriving DecidableEq

/-- A participant transaction within a trace.  A node either carries an inbound
`message` or is a tick-tock transaction owned by `tick_tock_account` (the
`account` of its `tick_tock_tx`); `tx_hash` may be unavailable. -/
structure EventNode where
  lt : Int
  tx_hash : Option String
  is_tick_tock : Bool
  message : Option Message
  tick_tock_account : String
deriving DecidableEq

def EventNode.get_lt (n : EventNode) : Int := n.lt

def EventNode.get_tx_hash (n : EventNode) : Option String := n.tx_hash

/-! Per-variant payloads.  Field names, nullability and key-presence follow the
accesses the corresponding `_fill_*` function performs on `block.data` (and on
block attributes such as `block.opcode` and `block.value`, folded into the
payload structure). -/

/-- Payload of `CallContractBlock` / `ContractDeployBlock`. -/
structure CallContractData where
  opcode : Option Int
  value : Amount
  source : Option AccountId
  destination : Option AccountId
deriving DecidableEq

/-- Payload of `TonTransferBlock`; `value` is the block attribute. -/
structure TonTransferData where
  value : Int
  source : AccountId
  destination : Option AccountId
  comment : Option String
  encrypted : Bool
deriving DecidableEq

/-- Payload of `JettonTransferBlock`; the comment is raw bytes, and
`receiver_wallet = none` models the absent dictionary key. -/
structure JettonTransferData where
  sender : AccountId
  sender_wallet : AccountId
  receiver : AccountId
  receiver_wallet : Option AccountId
  amount : Amount
  asset : Option Asset
  comment : Option (List Nat)
  encrypted_comment : Bool
  query_id : Int
  response_address : Option AccountId
  forward_amount : Amount
  custom_payload : Option String
  forward_payload : Option String
deriving DecidableEq

/-- One leg of a decentralized-exchange swap. -/
structure DexTransferData where
  amount : Amount
  source : Option AddrRef
  source_jetton_wallet : Option AddrRef
  destination : Option AddrRef
  destination_jetton_wallet : Option AddrRef
  asset : Option AddrRef
deriving DecidableEq

/-- Payload of `JettonSwapBlock`; for `source_asset`, `destination_asset` and
`destination_wallet` the outer `Option` models key presence in `block.data`
(the serializer tests `"destination_asset" in block.data`). -/
structure JettonSwapData where
  dex : String
  sender : Option AddrRef
  dex_incoming_transfer : DexTransferData
  dex_outgoing_transfer : DexTransferData
  source_asset : Option (Option AddrRef)
  destination_asset : Option (Option AddrRef)
  destination_wallet : Option (Option AddrRef)
deriving DecidableEq

/-- Payload of `NominatorPoolDepositBlock`. -/
structure NominatorPoolDepositData where
  source : AccountId
  pool : AccountId
  value : Amount
deriving DecidableEq

/-- Payload of `NominatorPoolWithdrawRequestBlock`; `payout_amount` is absent
for a plain request and carries the realized payout otherwise. -/
structure NominatorPoolWithdrawData where
  source : AccountId
  pool : AccountId
  payout_amount : Option Amount
deriving DecidableEq

/-- Payload of `TONStakersDepositBlock`. -/
structure TONStakersDepositData where
  source : Option AddrRef
  pool : Option AddrRef
  value : Amount
deriving DecidableEq

/-- Payload of `TONStakersWithdrawRequestBlock`. -/
structure TONStakersWithdrawRequestData where
  source : Option AddrRef
  tsTON_wallet : Option AddrRef
  pool : Option AddrRef
  tokens_burnt : Amount
  minted_nft : Option AddrRef
deriving DecidableEq

/-- Payload of `TONStakersWithdrawBlock`. -/
structure TONStakersWithdrawData where
  stake_holder : Option AddrRef
  pool : Option AddrRef
  amount : Amount
  burnt_nft : Option AddrRef
deriving DecidableEq

/-- Payload of `JettonBurnBlock`. -/
structure JettonBurnData where
  owner : AccountId
  jetton_wallet : AccountId
  asset : Asset
  amount : Amount
deriving DecidableEq

/-- Payload of `JettonMintBlock`. -/
structure JettonMintData where
  «to» : Option AddrRef
  to_jetton_wallet : Option AddrRef
  asset : Asset
  amount : Option Amount
  ton_amount : Option Amount
deriving DecidableEq

/-- Payload of `SubscribeBlock`. -/
structure SubscribeData where
  subscriber : AccountId
  beneficiary : Option AccountId
  subscription : AccountId
  amount : Amount
deriving DecidableEq

/-- Payload of `UnsubscribeBlock`. -/
structure UnsubscribeData where
  subscriber : AccountId
  beneficiary : Option AccountId
  subscription : AccountId
deriving DecidableEq

/-- Payload of `ElectionDepositStakeBlock` / `ElectionRecoverStakeBlock`;
`amount = none` models the absent dictionary key. -/
structure ElectionData where
  stake_holder : AccountId
  amount : Option Amount
deriving DecidableEq

/-- Payload of `DnsRenewBlock`. -/
structure DnsRenewData where
  source : Option AddrRef
  destination : Option AddrRef
deriving DecidableEq

/-- The typed payload of a block: one constructor per concrete block class the
dispatcher `match` recognizes (of the ones exercised by the checked claims);
`unrecognized` stands for any block class outside the dispatcher's case list. -/
inductive BlockData where
  | callContract (d : CallContractData)
  | contractDeploy (d : CallContractData)
  | tonTransfer (d : TonTransferData)
  | nominatorPoolDeposit (d : NominatorPoolDepositData)
  | nominatorPoolWithdrawRequest (d : NominatorPoolWithdrawData)
  | jettonTransfer (d : JettonTransferData)
  | jettonBurn (d : JettonBurnData)
  | jettonMint (d : JettonMintData)
  | jettonSwap (d : JettonSwapData)
  | tonstakersDeposit (d : TONStakersDepositData)
  | tonstakersWithdrawRequest (d : TONStakersWithdrawRequestData)
  | tonstakersWithdraw (d : TONStakersWithdrawData)
  | subscribe (d : SubscribeData)
  | unsubscribe (d : UnsubscribeData)
  | electionDepositStake (d : ElectionData)
  | electionRecoverStake (d : ElectionData)
  | dnsRenew (d : DnsRenewData)
  | unrecognized
deriving DecidableEq

/-- The classified operation unit handed to the serializer. -/
structure Block where
  btype : String
  event_nodes : List EventNode
  data : BlockData
  min_lt : Int
  max_lt : Int
  min_utime : Int
  max_utime : Int
  failed : Bool
  initiating_event_node : Option EventNode
deriving DecidableEq

/-! ## Output data model (`Action`) -/

/-- Nested payload `ton_transfer_data`. -/
structure TonTransferPayload where
  content : Option String
  encrypted : Bool
deriving DecidableEq

/-- Nested payload `jetton_transfer_data`. -/
structure JettonTransferPayload where
  query_id : Int
  response_destination : Option String
  forward_amount : Int
  custom_payload : Option String
  forward_payload : Option String
  comment : Option String
  is_encrypted_comment : Bool
deriving DecidableEq

/-- One resolved leg inside `jetton_swap_data`. -/
structure DexTransferPayload where
  amount : Int
  source : Option String
  source_jetton_wallet : Option String
  destination : Option String
  destination_jetton_wallet : Option String
  asset : Option String
deriving DecidableEq

/-- Nested payload `jetton_swap_data`. -/
structure JettonSwapPayload where
  dex : String
  sender : Option String
  dex_incoming_transfer : DexTransferPayload
  dex_outgoing_transfer : DexTransferPayload
deriving DecidableEq

/-- Nested payload `staking_data`; `ts_nft = none` models the absent key
(the nominator-pool fills write only `provider`). -/
structure StakingPayload where
  provider : String
  ts_nft : Option (Option String) := none
deriving DecidableEq

/-- The canonical output record.  Fields the base converter does not set
default to `none` (the ORM model initializes them to `NULL`); `accounts`,
`tx_hashes` and `extended_tx_hashes` hold nullable strings, as in the source,
where `None` can enter these collections transiently or stay. -/
structure Action where
  trace_id : String
  type : String
  action_id : String
  tx_hashes : List (Option String)
  start_lt : Int
  end_lt : Int
  start_utime : Int
  end_utime : Int
  success : Bool
  accounts : List (Option String) := []
  extended_tx_hashes : List (Option String) := []
  source : Option String := none
  source_secondary : Option String := none
  destination : Option String := none
  destination_secondary : Option String := none
  asset : Option String := none
  asset2 : Option String := none
  amount : Option Int := none
  value : Option Int := none
  opcode : Option Int := none
  ton_transfer_data : Option TonTransferPayload := none
  jetton_transfer_data : Option JettonTransferPayload := none
  jetton_swap_data : Option JettonSwapPayload := none
  staking_data : Option StakingPayload := none
deriving DecidableEq

/-! ## The serializer -/

/-- Address resolver `_addr`: `None` maps to `None`, an `Asset` to its token
contract address (or `None`), an `AccountId` to its canonical string. -/
def _addr : Option AddrRef → Option String
  | none => none
  | some (AddrRef.asset a) => a.jetton_address.map AccountId.as_str
  | some (AddrRef.account a) => some a.as_str

/-- Python's `min(nodes, key=lambda n: n.get_lt())`: keeps the first element among
ties (a later element replaces the accumulator only when strictly smaller);
raises `ValueError` on an empty sequence. -/
def pyMinByLt : List EventNode → Except String EventNode
  | [] => Except.error "ValueError: min() arg is an empty sequence"
  | n :: ns => Except.ok (ns.foldl (fun acc x => if x.get_lt < acc.get_lt then x else acc) n)

/-- Identity deriver `_calc_action_id`. -/
def _calc_action_id (block : Block) : Except String String := do
  let root_event_node ← pyMinByLt block.event_nodes
  let key :=
    match root_event_node.message with
    | some m => m.msg_hash
    | none => root_event_node.get_tx_hash.getD ""
  let key := key ++ block.btype
  pure (base64Encode (sha256 (utf8Encode key)))

/-- Account of one event node, as the base converter reads it: `tick_tock_tx.account`
for a tick-tock node, otherwise `message.transaction.account` (raising when the
node carries no message). -/
def nodeAccount (n : EventNode) : Except String String :=
  if n.is_tick_tock then Except.ok n.tick_tock_account
  else
    match n.message with
    | none => Except.error "AttributeError: NoneType has no attribute transaction"
    | some m => Except.ok m.transaction.account

def nodeAccounts : List EventNode → Except String (List String)
  | [] => Except.ok []
  | n :: ns => do
      let a ← nodeAccount n
      let rest ← nodeAccounts ns
      pure (a :: rest)

/-- Base converter `_base_block_to_action`. -/
def _base_block_to_action (block : Block) (trace_id : String) : Except String Action := do
  let action_id ← _calc_action_id block
  let tx_hashes := pySetList (block.event_nodes.map (fun n => n.get_tx_hash))
  let accounts ← nodeAccounts block.event_nodes
  pure { trace_id := trace_id
         type := block.btype
         action_id := action_id
         tx_hashes := tx_hashes
         start_lt := block.min_lt
         end_lt := block.max_lt
         start_utime := block.min_utime
         end_utime := block.max_utime
         success := !block.failed
         accounts := accounts.map some }

/-- Python's `s.replace("\u0000", "")`: drop every NUL character. -/
def stripNulls (s : String) : String :=
  String.mk (s.data.filter (fun c => c != Char.ofNat 0))

/-- Variant normalizer for `CallContractBlock` and `ContractDeployBlock`. -/
def _fill_call_contract_action (d : CallContractData) (action : Action) : Action :=
  { action with
    opcode := d.opcode
    value := some d.value.value
    source := d.source.map AccountId.as_str
    destination := d.destination.map AccountId.as_str }

/-- Variant normalizer for `TonTransferBlock`.  When the destination is `None` the
source prints a diagnostic (whose argument reads `event_nodes[0].message.trace_id`)
and then still calls `.as_str()` on the `None` destination, raising `AttributeError`. -/
def _fill_ton_transfer_action (block : Block) (d : TonTransferData) (action : Action) :
    Except String Action :=
  let action := { action with value := some d.value, source := some d.source.as_str }
  match d.destination with
  | none =>
      match block.event_nodes with
      | [] => Except.error "IndexError: list index out of range"
      | n :: _ =>
          match n.message with
          | none => Except.error "AttributeError: NoneType has no attribute trace_id"
          | some _ => Except.error "AttributeError: NoneType has no attribute as_str"
  | some dst =>
      let content := d.comment.map stripNulls
      Except.ok { action with
                  destination := some dst.as_str
                  ton_transfer_data := some { content := content, encrypted := d.encrypted } }

/-- Variant normalizer for `JettonTransferBlock`.  A plaintext comment is UTF-8
decoded and NUL-stripped; an encrypted comment is base64-encoded raw bytes. -/
def _fill_jetton_transfer_action (d : JettonTransferData) (action : Action) :
    Except String Action := do
  let action := { action with
    source := some d.sender.as_str
    source_secondary := some d.sender_wallet.as_str
    destination := some d.receiver.as_str
    destination_secondary := d.receiver_wallet.map AccountId.as_str
    amount := some d.amount.value }
  let asset : Option String ←
    match d.asset with
    | none => pure none
    | some a =>
        if a.is_ton then pure none
        else
          match a.jetton_address with
          | none => Except.error "AttributeError: NoneType has no attribute as_str"
          | some j => pure (some j.as_str)
  let comment : Option String ←
    match d.comment with
    | none => pure none
    | some bs =>
        if d.encrypted_comment then pure (some (base64Encode bs))
        else
          match utf8Decode bs with
          | none => Except.error "UnicodeDecodeError"
          | some s => pure (some (stripNulls s))
  pure { action with
         asset := asset
         jetton_transfer_data := some {
           query_id := d.query_id
           response_destination := d.response_address.map AccountId.as_str
           forward_amount := d.forward_amount.value
           custom_payload := d.custom_payload
           forward_payload := d.forward_payload
           comment := comment
           is_encrypted_comment := d.encrypted_comment } }

/-- Resolution of one swap leg, as `_fill_jetton_swap_action` builds its two
transfer dictionaries through `_addr`. -/
def resolveDexTransfer (d : DexTransferData) : DexTransferPayload :=
  { amount := d.amount.value
    source := _addr d.source
    source_jetton_wallet := _addr d.source_jetton_wallet
    destination := _addr d.destination
    destination_jetton_wallet := _addr d.destination_jetton_wallet
    asset := _addr d.asset }

/-- Variant normalizer for `JettonSwapBlock`.  The legs provide the asset
defaults; `stonfi_v2` reads the explicit `source_asset`/`destination_asset`
keys (a `KeyError` when missing), and a present non-null `destination_wallet`
or `destination_asset` key overrides the leg-derived value afterwards. -/
def _fill_jetton_swap_action (d : JettonSwapData) (action : Action) : Except String Action := do
  let dex_incoming_transfer := resolveDexTransfer d.dex_incoming_transfer
  let dex_outgoing_transfer := resolveDexTransfer d.dex_outgoing_transfer
  let action := { action with
    asset := dex_incoming_transfer.asset
    asset2 := dex_outgoing_transfer.asset }
  let action ←
    if d.dex = "stonfi_v2" then
      match d.source_asset, d.destination_asset with
      | some sa, some da => pure { action with asset := _addr sa, asset2 := _addr da }
      | _, _ => Except.error "KeyError"
    else pure action
  let action := { action with
    source := dex_incoming_transfer.source
    source_secondary := dex_incoming_transfer.source_jetton_wallet
    destination := dex_outgoing_transfer.destination
    destination_secondary := dex_outgoing_transfer.destination_jetton_wallet }
  let action :=
    match d.destination_wallet with
    | some (some w) => { action with destination_secondary := _addr (some w) }
    | _ => action
  let action :=
    match d.destination_asset with
    | some (some v) => { action with asset2 := _addr (some v) }
    | _ => action
  pure { action with
         jetton_swap_data := some {
           dex := d.dex
           sender := _addr d.sender
           dex_incoming_transfer := dex_incoming_transfer
           dex_outgoing_transfer := dex_outgoing_transfer } }

/-- Variant normalizer for `NominatorPoolDepositBlock`. -/
def _fill_nominator_pool_deposit_action (d : NominatorPoolDepositData) (action : Action) :
    Action :=
  { action with
    type := "stake_deposit"
    source := some d.source.as_str
    destination := some d.pool.as_str
    amount := some d.value.value
    staking_data := some { provider := "nominator" } }

/-- Variant normalizer for `NominatorPoolWithdrawRequestBlock`: without a
realized `payout_amount` the action is a withdrawal request; with one it is a
completed withdrawal carrying that amount. -/
def _fill_nominator_pool_withdraw_request_action (d : NominatorPoolWithdrawData)
    (action : Action) : Action :=
  let action :=
    match d.payout_amount with
    | none => { action with type := "stake_withdrawal_request" }
    | some amt => { action with type := "stake_withdrawal", amount := some amt.value }
  { action with
    staking_data := some { provider := "nominator" }
    source := some d.source.as_str
    destination := some d.pool.as_str }

/-- Variant normalizer for `TONStakersDepositBlock`. -/
def _fill_tonstakers_deposit_action (d : TONStakersDepositData) (action : Action) : Action :=
  { action with
    type := "stake_deposit"
    source := _addr d.source
    destination := _addr d.pool
    amount := some d.value.value
    staking_data := some { provider := "tonstakers" } }

/-- Variant normalizer for `TONStakersWithdrawRequestBlock`. -/
def _fill_tonstakers_withdraw_request_action (d : TONStakersWithdrawRequestData)
    (action : Action) : Action :=
  { action with
    source := _addr d.source
    source_secondary := _addr d.tsTON_wallet
    destination := _addr d.pool
    amount := some d.tokens_burnt.value
    type := "stake_withdrawal_request"
    staking_data := some { provider := "tonstakers", ts_nft := some (_addr d.minted_nft) } }

/-- Variant normalizer for `TONStakersWithdrawBlock`. -/
def _fill_tonstakers_withdraw_action (d : TONStakersWithdrawData) (action : Action) : Action :=
  { action with
    source := _addr d.stake_holder
    destination := _addr d.pool
    amount := some d.amount.value
    type := "stake_withdrawal"
    staking_data := some { provider := "tonstakers", ts_nft := some (_addr d.burnt_nft) } }

/-- Variant normalizer for `JettonBurnBlock` (raises when the burnt asset has
no token contract address). -/
def _fill_jetton_burn_action (d : JettonBurnData) (action : Action) : Except String Action :=
  match d.asset.jetton_address with
  | none => Except.error "AttributeError: NoneType has no attribute as_str"
  | some j =>
      Except.ok { action with
                  source := some d.owner.as_str
                  source_secondary := some d.jetton_wallet.as_str
                  asset := some j.as_str
                  amount := some d.amount.value }

/-- Variant normalizer for `JettonMintBlock`. -/
def _fill_jetton_mint_action (d : JettonMintData) (action : Action) : Action :=
  { action with
    destination := _addr d.«to»
    destination_secondary := _addr d.to_jetton_wallet
    asset := d.asset.jetton_address.map AccountId.as_str
    amount := d.amount.map Amount.value
    value := d.ton_amount.map Amount.value }

/-- Variant normalizer for `SubscribeBlock`. -/
def _fill_subscribe_action (d : SubscribeData) (action : Action) : Action :=
  { action with
    source := some d.subscriber.as_str
    destination := d.beneficiary.map AccountId.as_str
    destination_secondary := some d.subscription.as_str
    amount := some d.amount.value }

/-- Variant normalizer for `UnsubscribeBlock`. -/
def _fill_unsubscribe_action (d : UnsubscribeData) (action : Action) : Action :=
  { action with
    source := some d.subscriber.as_str
    destination := d.beneficiary.map AccountId.as_str
    destination_secondary := some d.subscription.as_str }

/-- Variant normalizer shared by the two election block classes. -/
def _fill_election_action (d : ElectionData) (action : Action) : Action :=
  { action with
    source := some d.stake_holder.as_str
    amount := d.amount.map Amount.value }

/-- Variant normalizer for `DnsRenewBlock`. -/
def _fill_dns_renew_action (d : DnsRenewData) (action : Action) : Action :=
  { action with
    source := _addr d.source
    destination := _addr d.destination }

/-- The warning emitted on the dispatcher's fallback path. -/
def unknownBlockWarning (block : Block) (trace_id : String) : String :=
  "Unknown block type " ++ block.btype ++ " for trace " ++ trace_id

/-- Dispatcher: the `match block:` statement of `block_to_action`.  The
fallback case only logs; it fills nothing. -/
def dispatchFill (block : Block) (trace_id : String) (action : Action) :
    Except String (Action × List String) :=
  match block.data with
  | BlockData.callContract d => Except.ok (_fill_call_contract_action d action, [])
  | BlockData.contractDeploy d => Except.ok (_fill_call_contract_action d action, [])
  | BlockData.tonTransfer d =>
      (_fill_ton_transfer_action block d action).map (fun a => (a, []))
  | BlockData.nominatorPoolDeposit d =>
      Except.ok (_fill_nominator_pool_deposit_action d action, [])
  | BlockData.nominatorPoolWithdrawRequest d =>
      Except.ok (_fill_nominator_pool_withdraw_request_action d action, [])
  | BlockData.jettonTransfer d =>
      (_fill_jetton_transfer_action d action).map (fun a => (a, []))
  | BlockData.jettonBurn d => (_fill_jetton_burn_action d action).map (fun a => (a, []))
  | BlockData.jettonMint d => Except.ok (_fill_jetton_mint_action d action, [])
  | BlockData.jettonSwap d => (_fill_jetton_swap_action d action).map (fun a => (a, []))
  | BlockData.tonstakersDeposit d => Except.ok (_fill_tonstakers_deposit_action d action, [])
  | BlockData.tonstakersWithdrawRequest d =>
      Except.ok (_fill_tonstakers_withdraw_request_action d action, [])
  | BlockData.tonstakersWithdraw d => Except.ok (_fill_tonstakers_withdraw_action d action, [])
  | BlockData.subscribe d => Except.ok (_fill_subscribe_action d action, [])
  | BlockData.unsubscribe d => Except.ok (_fill_unsubscribe_action d action, [])
  | BlockData.electionDepositStake d => Except.ok (_fill_election_action d action, [])
  | BlockData.electionRecoverStake d => Except.ok (_fill_election_action d action, [])
  | BlockData.dnsRenew d => Except.ok (_fill_dns_renew_action d action, [])
  | BlockData.unrecognized => Except.ok (action, [unknownBlockWarning block trace_id])

/-- The diagnostic logged when the initiating node's account was not already in
the accounts collection. -/
def initiatingAccountInfo (n : EventNode) (trace_id : String) (action : Action) : String :=
  "Initiating transaction (" ++
    (match n.get_tx_hash with | some h => h | none => "None") ++
    ") account not in accounts. Trace id: " ++ trace_id ++ ". Action id: " ++ action.action_id

/-- Final aggregation of `block_to_action` (the lines after the dispatch):
append the four generic address fields to the accounts, build
`extended_tx_hashes` from the hash set plus the initiating node's hash
(`or ""`), append the initiating node's account when it carries a message
(logging when that account is new), then strip `None` entries and deduplicate
the accounts. -/
def assembleAction (block : Block) (trace_id : String) (action : Action) (logs : List String) :
    Except String (Action × List String) :=
  let accounts := action.accounts ++
    [action.source, action.source_secondary, action.destination, action.destination_secondary]
  let extended_tx_hashes := pySetList action.tx_hashes
  match block.initiating_event_node with
  | none =>
      Except.ok ({ action with
                   extended_tx_hashes := extended_tx_hashes
                   accounts := pySetList (accounts.filter Option.isSome) }, logs)
  | some n =>
      let extended_tx_hashes := pySetAdd extended_tx_hashes (some (n.get_tx_hash.getD ""))
      if n.is_tick_tock then
        Except.ok ({ action with
                     extended_tx_hashes := extended_tx_hashes
                     accounts := pySetList (accounts.filter Option.isSome) }, logs)
      else
        match n.message with
        | none => Except.error "AttributeError: NoneType has no attribute transaction"
        | some m =>
            let acc := m.transaction.account
            let logs :=
              if some acc ∈ accounts then logs
              else logs ++ [initiatingAccountInfo n trace_id action]
            let accounts := accounts ++ [some acc]
            Except.ok ({ action with
                         extended_tx_hashes := extended_tx_hashes
                         accounts := pySetList (accounts.filter Option.isSome) }, logs)

/-- The serializer entry point `block_to_action`, returning the completed
record together with the diagnostics emitted on the way. -/
def block_to_action (block : Block) (trace_id : String) :
    Except String (Action × List String) := do
  let action ← _base_block_to_action block trace_id
  let (action, logs) ← dispatchFill block trace_id action
  assembleAction block trace_id action logs

/-- Structural facts the upstream data model guarantees of every node: it is a
tick-tock transaction or carries an inbound message. -/
def wellFormedNode (n : EventNode) : Bool := n.is_tick_tock || n.message.isSome

/-- Structural facts the upstream data model guarantees of every block: at
least one event node, and every node (the initiating one included) is
tick-tock or carries a message. -/
def wellFormedBlock (b : Block) : Bool :=
  !b.event_nodes.isEmpty &&
  b.event_nodes.all wellFormedNode &&
  (match b.initiating_event_node with
   | some n => wellFormedNode n
   | none => true)


/-! ## Helper lemmas about the Python set model -/

theorem mem_pySetList {α : Type} [DecidableEq α] {x : α} {l : List α} :
    x ∈ pySetList l ↔ x ∈ l := List.mem_dedup

theorem nodup_pySetList {α : Type} [DecidableEq α] (l : List α) : (pySetList l).Nodup :=
  List.nodup_dedup l

theorem mem_pySetAdd_of_mem {α : Type} [DecidableEq α] {x : α} {l : List α} (y : α)
    (h : x ∈ l) : x ∈ pySetAdd l y := by
  unfold pySetAdd
  split
  · exact h
  · exact List.mem_append_left _ h

theorem self_mem_pySetAdd {α : Type} [DecidableEq α] (l : List α) (y : α) :
    y ∈ pySetAdd l y := by
  unfold pySetAdd
  split
  · assumption
  · simp

/-- The final accounts collection of the assembler is always duplicate-free and
free of `None` entries. -/
theorem accounts_hygiene (l : List (Option String)) :
    (∀ x ∈ pySetList (l.filter Option.isSome), x ≠ none) ∧
      (pySetList (l.filter Option.isSome)).Nodup := by
  constructor
  · intro x hx
    have hx' := mem_pySetList.mp hx
    have := List.of_mem_filter hx'
    intro hnone
    subst hnone
    simp [Option.isSome] at this
  · exact nodup_pySetList _

/-! ## Root selection: Python min against the documented first-minimum rule -/

/-- The design document's root selection rule, stated independently of the
implementation: the first node of the list that attains the minimum logical
time over the whole list. -/
def firstMinLt (ns : List EventNode) : Option EventNode :=
  ns.find? (fun n => ns.all (fun m => decide (n.get_lt ≤ m.get_lt)))

theorem find?_congr_pointwise {α : Type} (l : List α) {p q : α → Bool}
    (h : ∀ x, p x = q x) : l.find? p = l.find? q := by
  have hpq : p = q := funext h
  rw [hpq]

/-- Python's accumulator step for `min(..., key=lambda n: n.get_lt())`: a later
element replaces the accumulator only when strictly smaller. -/
def pyMinStep (acc x : EventNode) : EventNode := if x.get_lt < acc.get_lt then x else acc

/-- Python's `min` over a nonempty node list lands on exactly the node the
design document describes: the first one attaining the minimum logical time. -/
theorem firstMin_cons (a : EventNode) (l : List EventNode) :
    firstMinLt (a :: l) = some (l.foldl pyMinStep a) := by
  induction l generalizing a with
  | nil =>
      simp [firstMinLt, List.find?, pyMinStep]
  | cons x xs ih =>
      by_cases hx : x.get_lt < a.get_lt
      · have hstep : (x :: xs).foldl pyMinStep a = xs.foldl pyMinStep x := by
          simp [List.foldl, pyMinStep, hx]
        rw [hstep, ← ih x]
        unfold firstMinLt
        have hpa :
            ((a :: x :: xs).all (fun m => decide (a.get_lt ≤ m.get_lt))) = false := by
          simp only [List.all_cons, Bool.and_eq_false_iff]
          right; left
          simp [not_le.mpr hx]
        have hcong : ∀ n : EventNode,
            ((a :: x :: xs).all (fun m => decide (n.get_lt ≤ m.get_lt))) =
              ((x :: xs).all (fun m => decide (n.get_lt ≤ m.get_lt))) := by
          intro n
          by_cases hn : n.get_lt ≤ x.get_lt
          · have hna : n.get_lt ≤ a.get_lt := le_of_lt (lt_of_le_of_lt hn hx)
            simp [List.all_cons, hna]
          · simp [List.all_cons, hn]
        calc (a :: x :: xs).find?
                (fun n => (a :: x :: xs).all (fun m => decide (n.get_lt ≤ m.get_lt)))
            = (x :: xs).find?
                (fun n => (a :: x :: xs).all (fun m => decide (n.get_lt ≤ m.get_lt))) := by
              simp [List.find?, hpa]
          _ = (x :: xs).find?
                (fun n => (x :: xs).all (fun m => decide (n.get_lt ≤ m.get_lt))) :=
              find?_congr_pointwise _ hcong
      · have hax : a.get_lt ≤ x.get_lt := le_of_not_lt hx
        have hstep : (x :: xs).foldl pyMinStep a = xs.foldl pyMinStep a := by
          simp [List.foldl, pyMinStep, hx]
        rw [hstep, ← ih a]
        unfold firstMinLt
        have hcong : ∀ n : EventNode,
            ((a :: x :: xs).all (fun m => decide (n.get_lt ≤ m.get_lt))) =
              ((a :: xs).all (fun m => decide (n.get_lt ≤ m.get_lt))) := by
          intro n
          by_cases hn : n.get_lt ≤ a.get_lt
          · have hnx : n.get_lt ≤ x.get_lt := le_trans hn hax
            simp [List.all_cons, hnx]
          · simp [List.all_cons, hn]
        by_cases hpa : ((a :: xs).all (fun m => decide (a.get_lt ≤ m.get_lt))) = true
        · have hpa2 : ((a :: x :: xs).all (fun m => decide (a.get_lt ≤ m.get_lt))) = true := by
            rw [hcong a]; exact hpa
          simp [List.find?, hpa, hpa2]
        · have hpa' : ((a :: xs).all (fun m => decide (a.get_lt ≤ m.get_lt))) = false :=
            Bool.eq_false_iff.mpr (fun hc => hpa hc)
          have hpa2 : ((a :: x :: xs).all (fun m => decide (a.get_lt ≤ m.get_lt))) = false := by
            rw [hcong a]; exact hpa'
          have hqx : ((a :: xs).all (fun m => decide (x.get_lt ≤ m.get_lt))) = false := by
            by_contra hc
            have hqx' : ((a :: xs).all (fun m => decide (x.get_lt ≤ m.get_lt))) = true := by
              cases hb : ((a :: xs).all (fun m => decide (x.get_lt ≤ m.get_lt))) with
              | true => rfl
              | false => exact absurd hb hc
            have hall := List.all_eq_true.mp hqx'
            have hgoal : ((a :: xs).all (fun m => decide (a.get_lt ≤ m.get_lt))) = true := by
              refine List.all_eq_true.mpr ?_
              intro m hm
              have hxm : decide (x.get_lt ≤ m.get_lt) = true := hall m hm
              have hxm' : x.get_lt ≤ m.get_lt := of_decide_eq_true hxm
              exact decide_eq_true (le_trans hax hxm')
            exact hpa hgoal
          calc (a :: x :: xs).find?
                  (fun n => (a :: x :: xs).all (fun m => decide (n.get_lt ≤ m.get_lt)))
              = (x :: xs).find?
                  (fun n => (a :: x :: xs).all (fun m => decide (n.get_lt ≤ m.get_lt))) := by
                simp [List.find?, hpa2]
            _ = (x :: xs).find?
                  (fun n => (a :: xs).all (fun m => decide (n.get_lt ≤ m.get_lt))) :=
                find?_congr_pointwise _ hcong
            _ = xs.find?
                  (fun n => (a :: xs).all (fun m => decide (n.get_lt ≤ m.get_lt))) := by
                simp [List.find?, hqx]
            _ = (a :: xs).find?
                  (fun n => (a :: xs).all (fun m => decide (n.get_lt ≤ m.get_lt))) := by
                simp [List.find?, hpa']

/-- How `firstMinLt` relates to the implementation's `pyMinByLt`. -/
theorem pyMinByLt_eq_firstMin {ns : List EventNode} {root : EventNode}
    (h : firstMinLt ns = some root) : pyMinByLt ns = Except.ok root := by
  cases ns with
  | nil => simp [firstMinLt, List.find?] at h
  | cons a l =>
      rw [firstMin_cons] at h
      have := Option.some.inj h
      unfold pyMinByLt
      rw [← this]
      rfl

/-! ## Sample inputs used by the concrete witnesses -/

/-- A message carried by a sample node. -/
def sampleMsg : Message :=
  { msg_hash := "M1", trace_id := "TR", transaction := { account := "ACC1" } }

def sampleNode1 : EventNode :=
  { lt := 10, tx_hash := some "H1", is_tick_tock := false, message := some sampleMsg,
    tick_tock_account := "" }

def sampleNode2 : EventNode :=
  { lt := 5, tx_hash := some "H2", is_tick_tock := true, message := none,
    tick_tock_account := "TT2" }

/-- An initiating node lying outside the block's node set, with no transaction
hash available. -/
def sampleInitNode : EventNode :=
  { lt := 1, tx_hash := none, is_tick_tock := false,
    message := some { msg_hash := "M0", trace_id := "TR",
                      transaction := { account := "INITACC" } },
    tick_tock_account := "" }

/-- A contract-call block over the two sample nodes. -/
def sampleCallBlock : Block :=
  { btype := "call_contract", event_nodes := [sampleNode1, sampleNode2],
    data := BlockData.callContract
      { opcode := some 7, value := { value := 100 },
        source := some { addr := "SRC" }, destination := none },
    min_lt := 5, max_lt := 10, min_utime := 1, max_utime := 2, failed := false,
    initiating_event_node := some sampleInitNode }

/-! ## Shape of the assembler's successful results -/

/-- Every successful result of the assembler keeps all scalar fields of its
input, rebuilds `accounts` as the deduplicated `None`-free image of some list,
and builds `extended_tx_hashes` from the deduplicated hash list, adding the
initiating node's hash (`or ""`) exactly when an initiating node exists. -/
theorem assembleAction_ok {b : Block} {t : String} {a : Action} {logs logs' : List String}
    {a' : Action}
    (h : assembleAction b t a logs = Except.ok (a', logs')) :
    a'.tx_hashes = a.tx_hashes ∧
    (∃ l, a'.accounts = pySetList (List.filter Option.isSome l)) ∧
    ((a'.extended_tx_hashes = pySetList a.tx_hashes) ∨
      (∃ x, a'.extended_tx_hashes = pySetAdd (pySetList a.tx_hashes) x)) ∧
    (∀ n, b.initiating_event_node = some n →
      a'.extended_tx_hashes = pySetAdd (pySetList a.tx_hashes) (some (n.get_tx_hash.getD ""))) ∧
    a'.trace_id = a.trace_id ∧ a'.type = a.type ∧ a'.action_id = a.action_id ∧
    a'.start_lt = a.start_lt ∧ a'.end_lt = a.end_lt ∧ a'.start_utime = a.start_utime ∧
    a'.end_utime = a.end_utime ∧ a'.success = a.success ∧
    a'.source = a.source ∧ a'.source_secondary = a.source_secondary ∧
    a'.destination = a.destination ∧ a'.destination_secondary = a.destination_secondary ∧
    a'.asset = a.asset ∧ a'.asset2 = a.asset2 ∧ a'.amount = a.amount ∧ a'.value = a.value ∧
    a'.opcode = a.opcode ∧ a'.ton_transfer_data = a.ton_transfer_data ∧
    a'.jetton_transfer_data = a.jetton_transfer_data ∧
    a'.jetton_swap_data = a.jetton_swap_data ∧ a'.staking_data = a.staking_data := by
  unfold assembleAction at h
  cases hin : b.initiating_event_node with
  | none =>
      rw [hin] at h
      simp only at h
      injection h with h1
      injection h1 with h2 h3
      subst h2
      refine ⟨rfl, ⟨_, rfl⟩, Or.inl rfl, ?_, rfl, rfl, rfl, rfl, rfl, rfl, rfl, rfl, rfl,
        rfl, rfl, rfl, rfl, rfl, rfl, rfl, rfl, rfl, rfl, rfl, rfl⟩
      intro n hn
      cases hn
  | some n =>
      rw [hin] at h
      simp only at h
      by_cases htt : n.is_tick_tock
      · rw [if_pos htt] at h
        injection h with h1
        injection h1 with h2 h3
        subst h2
        refine ⟨rfl, ⟨_, rfl⟩, Or.inr ⟨_, rfl⟩, ?_, rfl, rfl, rfl, rfl, rfl, rfl, rfl, rfl,
          rfl, rfl, rfl, rfl, rfl, rfl, rfl, rfl, rfl, rfl, rfl, rfl, rfl⟩
        intro n' hn'
        injection hn' with he
        subst he
        rfl
      · rw [if_neg htt] at h
        cases hm : n.message with
        | none => rw [hm] at h; cases h
        | some m =>
            rw [hm] at h
            simp only at h
            injection h with h1
            injection h1 with h2 h3
            subst h2
            refine ⟨rfl, ⟨_, rfl⟩, Or.inr ⟨_, rfl⟩, ?_, rfl, rfl, rfl, rfl, rfl, rfl, rfl,
              rfl, rfl, rfl, rfl, rfl, rfl, rfl, rfl, rfl, rfl, rfl, rfl, rfl, rfl⟩
            intro n' hn'
            injection hn' with he
            subst he
            rfl


/-! ## The variant normalizers never touch the transaction-hash aggregate -/

theorem map_pair_ok {x : Except String Action} {a' : Action} {logs : List String}
    (h : Except.map (fun a => (a, ([] : List String))) x = Except.ok (a', logs)) :
    x = Except.ok a' := by
  cases x with
  | error e => simp [Except.map] at h
  | ok a0 =>
      simp [Except.map] at h
      rw [h.1]

theorem ton_transfer_tx_hashes {b : Block} {d : TonTransferData} {a a' : Action}
    (h : _fill_ton_transfer_action b d a = Except.ok a') : a'.tx_hashes = a.tx_hashes := by
  unfold _fill_ton_transfer_action at h
  repeat' split at h
  all_goals first
    | (injection h with h1; subst h1; rfl)
    | cases h

theorem jetton_transfer_tx_hashes {d : JettonTransferData} {a a' : Action}
    (h : _fill_jetton_transfer_action d a = Except.ok a') : a'.tx_hashes = a.tx_hashes := by
  unfold _fill_jetton_transfer_action at h
  simp only [bind, Except.bind, pure, Except.pure] at h
  repeat' split at h
  all_goals first
    | (injection h with h1; subst h1; rfl)
    | cases h

theorem jetton_burn_tx_hashes {d : JettonBurnData} {a a' : Action}
    (h : _fill_jetton_burn_action d a = Except.ok a') : a'.tx_hashes = a.tx_hashes := by
  unfold _fill_jetton_burn_action at h
  split at h
  · cases h
  · injection h with h1; subst h1; rfl

theorem jetton_swap_tx_hashes {d : JettonSwapData} {a a' : Action}
    (h : _fill_jetton_swap_action d a = Except.ok a') : a'.tx_hashes = a.tx_hashes := by
  unfold _fill_jetton_swap_action at h
  simp only [bind, Except.bind, pure, Except.pure] at h
  repeat' split at h
  all_goals first
    | (injection h with h1; subst h1; rfl)
    | cases h

theorem nominator_withdraw_tx_hashes (d : NominatorPoolWithdrawData) (a : Action) :
    (_fill_nominator_pool_withdraw_request_action d a).tx_hashes = a.tx_hashes := by
  unfold _fill_nominator_pool_withdraw_request_action
  cases d.payout_amount <;> rfl

/-- The dispatcher (and every variant normalizer it applies) leaves the
`tx_hashes` computed by the base converter untouched. -/
theorem dispatchFill_tx_hashes {b : Block} {t : String} {a a' : Action} {logs : List String}
    (h : dispatchFill b t a = Except.ok (a', logs)) : a'.tx_hashes = a.tx_hashes := by
  unfold dispatchFill at h
  split at h
  case h_1 d => injection h with h1; injection h1 with h2 h3; subst h2; rfl
  case h_2 d => injection h with h1; injection h1 with h2 h3; subst h2; rfl
  case h_3 d => exact ton_transfer_tx_hashes (map_pair_ok h)
  case h_4 d => injection h with h1; injection h1 with h2 h3; subst h2; rfl
  case h_5 x1 x2 =>
      injection h with h1; injection h1 with h2 h3; subst h2
      exact nominator_withdraw_tx_hashes _ a
  case h_6 d => exact jetton_transfer_tx_hashes (map_pair_ok h)
  case h_7 d => exact jetton_burn_tx_hashes (map_pair_ok h)
  case h_8 d => injection h with h1; injection h1 with h2 h3; subst h2; rfl
  case h_9 d => exact jetton_swap_tx_hashes (map_pair_ok h)
  case h_10 d => injection h with h1; injection h1 with h2 h3; subst h2; rfl
  case h_11 d => injection h with h1; injection h1 with h2 h3; subst h2; rfl
  case h_12 d => injection h with h1; injection h1 with h2 h3; subst h2; rfl
  case h_13 d => injection h with h1; injection h1 with h2 h3; subst h2; rfl
  case h_14 d => injection h with h1; injection h1 with h2 h3; subst h2; rfl
  case h_15 d => injection h with h1; injection h1 with h2 h3; subst h2; rfl
  case h_16 d => injection h with h1; injection h1 with h2 h3; subst h2; rfl
  case h_17 d => injection h with h1; injection h1 with h2 h3; subst h2; rfl
  case h_18 => injection h with h1; injection h1 with h2 h3; subst h2; rfl

/-! ## Shape of the base converter's successful results -/

/-- Every successful result of the base converter carries exactly the invariant
skeleton: identity, deduplicated hash list, time bounds, negated failure flag,
node-derived accounts, and `None` for every variant-specific field. -/
theorem base_ok {b : Block} {t : String} {a : Action}
    (h : _base_block_to_action b t = Except.ok a) :
    a.tx_hashes = pySetList (b.event_nodes.map (fun n => n.get_tx_hash)) ∧
    a.trace_id = t ∧ a.type = b.btype ∧
    _calc_action_id b = Except.ok a.action_id ∧
    a.start_lt = b.min_lt ∧ a.end_lt = b.max_lt ∧
    a.start_utime = b.min_utime ∧ a.end_utime = b.max_utime ∧
    a.success = !b.failed ∧
    a.source = none ∧ a.source_secondary = none ∧ a.destination = none ∧
    a.destination_secondary = none ∧ a.asset = none ∧ a.asset2 = none ∧
    a.amount = none ∧ a.value = none ∧ a.opcode = none ∧
    a.ton_transfer_data = none ∧ a.jetton_transfer_data = none ∧
    a.jetton_swap_data = none ∧ a.staking_data = none ∧
    (∃ l, nodeAccounts b.event_nodes = Except.ok l ∧ a.accounts = l.map some) := by
  unfold _base_block_to_action at h
  simp only [bind, Except.bind, pure, Except.pure] at h
  cases hc : _calc_action_id b with
  | error e => rw [hc] at h; cases h
  | ok i =>
      rw [hc] at h
      simp only at h
      cases ha : nodeAccounts b.event_nodes with
      | error e => rw [ha] at h; cases h
      | ok accs =>
          rw [ha] at h
          simp only at h
          injection h with h1
          subst h1
          exact ⟨rfl, rfl, rfl, rfl, rfl, rfl, rfl, rfl, rfl, rfl, rfl, rfl, rfl, rfl,
            rfl, rfl, rfl, rfl, rfl, rfl, rfl, rfl, ⟨accs, rfl, rfl⟩⟩

/-! ## C1: the identity deriver -/

/-- C1: for every block with event nodes, `_calc_action_id` selects the root
event node as the first node attaining the minimum logical time, keys on that
root's message hash when it carries a message and otherwise on its transaction
hash (empty string when unavailable), appends the block's operation type tag,
hashes the key with SHA-256 and base64-encodes the digest. -/
theorem c1_identity_deriver (b : Block) (root : EventNode)
    (h : firstMinLt b.event_nodes = some root) :
    _calc_action_id b = Except.ok (base64Encode (sha256 (utf8Encode
      ((match root.message with
        | some m => m.msg_hash
        | none => root.get_tx_hash.getD "") ++ b.btype)))) := by
  unfold _calc_action_id
  rw [pyMinByLt_eq_firstMin h]
  rfl

/-- Witness for C1: on the concrete two-node sample block the documented root
selection picks the tick-tock node with the smaller logical time, and the
identity is the base64-encoded digest of its transaction hash plus type tag. -/
theorem c1_identity_deriver_witness :
    firstMinLt sampleCallBlock.event_nodes = some sampleNode2 ∧
    _calc_action_id sampleCallBlock = Except.ok (base64Encode (sha256 (utf8Encode
      ((match sampleNode2.message with
        | some m => m.msg_hash
        | none => sampleNode2.get_tx_hash.getD "") ++ sampleCallBlock.btype)))) :=
  ⟨by decide, c1_identity_deriver sampleCallBlock sampleNode2 (by decide)⟩

/-! ## C2: determinism -/

/-- C2: converting the same block with the same trace id twice yields the same
`action_id` and identical complete records, the list-valued aggregates
included. -/
theorem c2_determinism (b : Block) (t : String) (a1 a2 : Action) (l1 l2 : List String)
    (h1 : block_to_action b t = Except.ok (a1, l1))
    (h2 : block_to_action b t = Except.ok (a2, l2)) :
    a1.action_id = a2.action_id ∧ a1 = a2 ∧ a1.tx_hashes = a2.tx_hashes ∧
    a1.extended_tx_hashes = a2.extended_tx_hashes ∧ a1.accounts = a2.accounts := by
  rw [h1] at h2
  injection h2 with hp
  injection hp with ha hl
  subst ha
  exact ⟨rfl, rfl, rfl, rfl, rfl⟩

/-- The record and diagnostics the serializer produces on the sample
contract-call block (total by construction: the conversion succeeds there). -/
def sampleCallResult : Action × List String :=
  match block_to_action sampleCallBlock "TR" with
  | Except.ok r => r
  | Except.error _ =>
      ({ trace_id := "", type := "", action_id := "", tx_hashes := [], start_lt := 0,
         end_lt := 0, start_utime := 0, end_utime := 0, success := false }, [])

/-- Witness for C2 on the concrete sample block. -/
theorem c2_determinism_witness :
    block_to_action sampleCallBlock "TR" =
      Except.ok (sampleCallResult.1, sampleCallResult.2) ∧
    (sampleCallResult.1.action_id = sampleCallResult.1.action_id ∧
     sampleCallResult.1 = sampleCallResult.1 ∧
     sampleCallResult.1.tx_hashes = sampleCallResult.1.tx_hashes ∧
     sampleCallResult.1.extended_tx_hashes = sampleCallResult.1.extended_tx_hashes ∧
     sampleCallResult.1.accounts = sampleCallResult.1.accounts) :=
  ⟨rfl, c2_determinism sampleCallBlock "TR" sampleCallResult.1 sampleCallResult.1
    sampleCallResult.2 sampleCallResult.2 rfl rfl⟩

/-! ## C3: the null-destination native transfer aborts the conversion -/

/-- A native-currency transfer block whose payload destination is `None`; its
only event node is well-formed and carries a message. -/
def tonBadBlock : Block :=
  { btype := "ton_transfer", event_nodes := [sampleNode1],
    data := BlockData.tonTransfer
      { value := 5, source := { addr := "S" }, destination := none,
        comment := none, encrypted := false },
    min_lt := 10, max_lt := 10, min_utime := 1, max_utime := 1, failed := false,
    initiating_event_node := none }

/-- C3 (refuting evaluation): on a recognized native-currency transfer block
whose destination is `None`, `block_to_action` does not return a best-effort
record with the field left null; after printing its diagnostic the normalizer
calls `.as_str()` on the `None` destination and the `AttributeError` escapes. -/
theorem c3_null_destination_raises :
    block_to_action tonBadBlock "TR" =
      Except.error "AttributeError: NoneType has no attribute as_str" := by
  rfl

/-! ## C4, C5, C10: the aggregate invariants of every produced record -/

/-- C4: every record the serializer returns has an accounts collection with no
`None` entries and no duplicate entries. -/
theorem c4_account_hygiene (b : Block) (t : String) (a : Action) (logs : List String)
    (h : block_to_action b t = Except.ok (a, logs)) :
    (∀ x ∈ a.accounts, x ≠ none) ∧ a.accounts.Nodup := by
  unfold block_to_action at h
  simp only [bind, Except.bind] at h
  cases hb : _base_block_to_action b t with
  | error e => rw [hb] at h; cases h
  | ok a0 =>
      rw [hb] at h
      simp only at h
      cases hd : dispatchFill b t a0 with
      | error e => rw [hd] at h; cases h
      | ok p =>
          rw [hd] at h
          simp only at h
          obtain ⟨-, ⟨l, hacc⟩, -⟩ := assembleAction_ok h
          rw [hacc]
          exact accounts_hygiene l

/-- Witness for C4 on the concrete sample block. -/
theorem c4_account_hygiene_witness :
    block_to_action sampleCallBlock "TR" =
      Except.ok (sampleCallResult.1, sampleCallResult.2) ∧
    ((∀ x ∈ sampleCallResult.1.accounts, x ≠ none) ∧ sampleCallResult.1.accounts.Nodup) :=
  ⟨rfl, c4_account_hygiene sampleCallBlock "TR" sampleCallResult.1 sampleCallResult.2 rfl⟩

/-- C5: in every record the serializer returns, each entry of `tx_hashes` also
occurs in `extended_tx_hashes`, whether or not the block has an initiating
event node. -/
theorem c5_hash_superset (b : Block) (t : String) (a : Action) (logs : List String)
    (h : block_to_action b t = Except.ok (a, logs)) :
    ∀ x ∈ a.tx_hashes, x ∈ a.extended_tx_hashes := by
  unfold block_to_action at h
  simp only [bind, Except.bind] at h
  cases hb : _base_block_to_action b t with
  | error e => rw [hb] at h; cases h
  | ok a0 =>
      rw [hb] at h
      simp only at h
      cases hd : dispatchFill b t a0 with
      | error e => rw [hd] at h; cases h
      | ok p =>
          rw [hd] at h
          simp only at h
          obtain ⟨htx, -, hext, -⟩ := assembleAction_ok h
          intro x hx
          rw [htx] at hx
          rcases hext with hext | ⟨y, hext⟩
          · rw [hext]
            exact mem_pySetList.mpr hx
          · rw [hext]
            exact mem_pySetAdd_of_mem y (mem_pySetList.mpr hx)

/-- Witness for C5 on the concrete sample block. -/
theorem c5_hash_superset_witness :
    block_to_action sampleCallBlock "TR" =
      Except.ok (sampleCallResult.1, sampleCallResult.2) ∧
    (∀ x ∈ sampleCallResult.1.tx_hashes, x ∈ sampleCallResult.1.extended_tx_hashes) :=
  ⟨rfl, c5_hash_superset sampleCallBlock "TR" sampleCallResult.1 sampleCallResult.2 rfl⟩

/-- C10: when the initiating event node exists but its transaction hash is
unavailable, the serializer puts the empty string into `extended_tx_hashes` in
its place, while `tx_hashes` stays the deduplicated node-hash list in which an
unavailable hash appears as `None`, not as the empty string. -/
theorem c10_initiating_empty_hash (b : Block) (t : String) (n : EventNode) (a : Action)
    (logs : List String)
    (hin : b.initiating_event_node = some n) (hh : n.get_tx_hash = none)
    (h : block_to_action b t = Except.ok (a, logs)) :
    some "" ∈ a.extended_tx_hashes ∧
    a.tx_hashes = pySetList (b.event_nodes.map (fun m => m.get_tx_hash)) ∧
    (∀ m ∈ b.event_nodes, m.get_tx_hash = none → none ∈ a.tx_hashes) := by
  unfold block_to_action at h
  simp only [bind, Except.bind] at h
  cases hb : _base_block_to_action b t with
  | error e => rw [hb] at h; cases h
  | ok a0 =>
      rw [hb] at h
      simp only at h
      cases hd : dispatchFill b t a0 with
      | error e => rw [hd] at h; cases h
      | ok p =>
          rw [hd] at h
          simp only at h
          obtain ⟨hbase, -⟩ := base_ok hb
          obtain ⟨htx, -, -, hforced, -⟩ := assembleAction_ok h
          cases hp : p with
          | mk a1 l1 =>
              rw [hp] at htx hforced hd
              have htx1 : a1.tx_hashes = a0.tx_hashes := dispatchFill_tx_hashes hd
              have hfin : a.tx_hashes = pySetList (b.event_nodes.map (fun m => m.get_tx_hash)) := by
                rw [htx, htx1, hbase]
              refine ⟨?_, hfin, ?_⟩
              · have hext := hforced n hin
                rw [hh] at hext
                rw [hext]
                exact self_mem_pySetAdd _ _
              · intro m hm hmh
                rw [hfin]
                refine mem_pySetList.mpr ?_
                refine List.mem_map.mpr ⟨m, hm, hmh⟩

/-- Witness for C10: the sample block's initiating node has no transaction
hash, and the conversion succeeds. -/
theorem c10_initiating_empty_hash_witness :
    sampleCallBlock.initiating_event_node = some sampleInitNode ∧
    sampleInitNode.get_tx_hash = none ∧
    block_to_action sampleCallBlock "TR" =
      Except.ok (sampleCallResult.1, sampleCallResult.2) ∧
    (some "" ∈ sampleCallResult.1.extended_tx_hashes ∧
     sampleCallResult.1.tx_hashes =
       pySetList (sampleCallBlock.event_nodes.map (fun m => m.get_tx_hash)) ∧
     (∀ m ∈ sampleCallBlock.event_nodes, m.get_tx_hash = none →
       none ∈ sampleCallResult.1.tx_hashes)) :=
  ⟨rfl, rfl, rfl,
   c10_initiating_empty_hash sampleCallBlock "TR" sampleInitNode sampleCallResult.1
     sampleCallResult.2 rfl rfl rfl⟩

/-! ## Success of the pipeline on well-formed inputs -/

theorem calc_ok_of_ne {b : Block} (h : b.event_nodes ≠ []) :
    ∃ s, _calc_action_id b = Except.ok s := by
  unfold _calc_action_id
  cases hev : b.event_nodes with
  | nil => exact absurd hev h
  | cons n rest => exact ⟨_, rfl⟩

theorem nodeAccount_ok {n : EventNode} (h : wellFormedNode n = true) :
    ∃ s, nodeAccount n = Except.ok s := by
  unfold wellFormedNode at h
  unfold nodeAccount
  by_cases htt : n.is_tick_tock
  · rw [if_pos htt]
    exact ⟨_, rfl⟩
  · rw [if_neg htt]
    cases hm : n.message with
    | none =>
        rw [Bool.or_eq_true] at h
        rcases h with h | h
        · exact absurd h htt
        · rw [hm] at h; cases h
    | some m => exact ⟨_, rfl⟩

theorem nodeAccounts_ok {ns : List EventNode} (h : ns.all wellFormedNode = true) :
    ∃ l, nodeAccounts ns = Except.ok l := by
  induction ns with
  | nil => exact ⟨[], rfl⟩
  | cons n rest ih =>
      rw [List.all_cons, Bool.and_eq_true] at h
      obtain ⟨s, hs⟩ := nodeAccount_ok h.1
      obtain ⟨l, hl⟩ := ih h.2
      refine ⟨s :: l, ?_⟩
      unfold nodeAccounts
      rw [hs, hl]
      rfl

/-- Evaluation of the base converter once its two fallible steps are known. -/
theorem base_eval {b : Block} {t : String} {idv : String} {accs : List String}
    (hid : _calc_action_id b = Except.ok idv)
    (haccs : nodeAccounts b.event_nodes = Except.ok accs) :
    _base_block_to_action b t = Except.ok
      { trace_id := t, type := b.btype, action_id := idv,
        tx_hashes := pySetList (b.event_nodes.map (fun n => n.get_tx_hash)),
        start_lt := b.min_lt, end_lt := b.max_lt, start_utime := b.min_utime,
        end_utime := b.max_utime, success := !b.failed, accounts := accs.map some } := by
  unfold _base_block_to_action
  rw [hid, haccs]
  rfl

/-- The dispatcher's fallback case: the action passes through untouched and the
warning naming the operation type and trace id is emitted. -/
theorem dispatch_unrecognized {b : Block} {t : String} {a : Action}
    (hdata : b.data = BlockData.unrecognized) :
    dispatchFill b t a = Except.ok (a, [unknownBlockWarning b t]) := by
  unfold dispatchFill
  rw [hdata]

/-- The assembler succeeds whenever the initiating node (if any) is
well-formed. -/
theorem assemble_ok_exists {b : Block} {t : String} {a : Action} {logs : List String}
    (hinit : (match b.initiating_event_node with
              | some n => wellFormedNode n
              | none => true) = true) :
    ∃ r, assembleAction b t a logs = Except.ok r := by
  unfold assembleAction
  cases hin : b.initiating_event_node with
  | none => exact ⟨_, rfl⟩
  | some n =>
      rw [hin] at hinit
      unfold wellFormedNode at hinit
      simp only
      by_cases htt : n.is_tick_tock
      · exact ⟨_, by rw [if_pos htt]⟩
      · rw [Bool.or_eq_true] at hinit
        rcases hinit with hi | hi
        · exact absurd hi htt
        · cases hm : n.message with
          | none => rw [hm] at hi; cases hi
          | some m =>
              exact ⟨_, by rw [if_neg htt]; try rfl⟩

/-- Successful assembly never loses the diagnostics already collected. -/
theorem assembleAction_logs {b : Block} {t : String} {a : Action} {logs logs' : List String}
    {a' : Action} (h : assembleAction b t a logs = Except.ok (a', logs')) :
    ∀ s ∈ logs, s ∈ logs' := by
  unfold assembleAction at h
  cases hin : b.initiating_event_node with
  | none =>
      rw [hin] at h
      simp only at h
      injection h with h1
      injection h1 with h2 h3
      subst h3
      exact fun s hs => hs
  | some n =>
      rw [hin] at h
      simp only at h
      by_cases htt : n.is_tick_tock
      · rw [if_pos htt] at h
        injection h with h1
        injection h1 with h2 h3
        subst h3
        exact fun s hs => hs
      · rw [if_neg htt] at h
        cases hm : n.message with
        | none => rw [hm] at h; cases h
        | some m =>
            rw [hm] at h
            simp only at h
            injection h with h1
            injection h1 with h2 h3
            subst h3
            intro s hs
            split
            · exact hs
            · exact List.mem_append_left _ hs

/-! ## C6: the unrecognized-type fallback -/

/-- Projection to the produced record, when the conversion succeeded. -/
def outAction (r : Except String (Action × List String)) : Option Action :=
  match r with
  | Except.ok p => some p.1
  | Except.error _ => none

/-- Projection to the emitted diagnostics, when the conversion succeeded. -/
def outLogs (r : Except String (Action × List String)) : Option (List String) :=
  match r with
  | Except.ok p => some p.2
  | Except.error _ => none

/-- Projection of a fallible string computation. -/
def okStr (r : Except String String) : Option String :=
  match r with
  | Except.ok s => some s
  | Except.error _ => none

/-- C6: on a well-formed block whose operation-type tag matches none of the
known variants, the conversion raises no fault, emits the warning naming the
operation type and trace id, and returns a record in which only the
base-converter fields are populated: every generic field and every
type-specific nested payload stays `None`, while identity, hash list, time
bounds, success flag and tags carry the base values. -/
theorem c6_unrecognized_fallback (b : Block) (t : String)
    (hwf : wellFormedBlock b = true) (hdata : b.data = BlockData.unrecognized) :
    (outAction (block_to_action b t)).map Action.source = some none ∧
    (outAction (block_to_action b t)).map Action.source_secondary = some none ∧
    (outAction (block_to_action b t)).map Action.destination = some none ∧
    (outAction (block_to_action b t)).map Action.destination_secondary = some none ∧
    (outAction (block_to_action b t)).map Action.asset = some none ∧
    (outAction (block_to_action b t)).map Action.asset2 = some none ∧
    (outAction (block_to_action b t)).map Action.amount = some none ∧
    (outAction (block_to_action b t)).map Action.value = some none ∧
    (outAction (block_to_action b t)).map Action.opcode = some none ∧
    (outAction (block_to_action b t)).map Action.ton_transfer_data = some none ∧
    (outAction (block_to_action b t)).map Action.jetton_transfer_data = some none ∧
    (outAction (block_to_action b t)).map Action.jetton_swap_data = some none ∧
    (outAction (block_to_action b t)).map Action.staking_data = some none ∧
    (outAction (block_to_action b t)).map Action.trace_id = some t ∧
    (outAction (block_to_action b t)).map Action.type = some b.btype ∧
    (outAction (block_to_action b t)).map Action.action_id = okStr (_calc_action_id b) ∧
    (outAction (block_to_action b t)).map Action.tx_hashes =
      some (pySetList (b.event_nodes.map (fun n => n.get_tx_hash))) ∧
    (outAction (block_to_action b t)).map Action.start_lt = some b.min_lt ∧
    (outAction (block_to_action b t)).map Action.end_lt = some b.max_lt ∧
    (outAction (block_to_action b t)).map Action.start_utime = some b.min_utime ∧
    (outAction (block_to_action b t)).map Action.end_utime = some b.max_utime ∧
    (outAction (block_to_action b t)).map Action.success = some (!b.failed) ∧
    (outLogs (block_to_action b t)).map (fun ls => decide (unknownBlockWarning b t ∈ ls)) =
      some true := by
  have hwf' := hwf
  unfold wellFormedBlock at hwf'
  rw [Bool.and_eq_true, Bool.and_eq_true] at hwf'
  obtain ⟨⟨hne, hall⟩, hinit⟩ := hwf'
  have hne' : b.event_nodes ≠ [] := by
    cases hev : b.event_nodes with
    | nil => rw [hev] at hne; simp at hne
    | cons x xs => simp
  obtain ⟨idv, hid⟩ := calc_ok_of_ne hne'
  obtain ⟨accs, haccs⟩ := nodeAccounts_ok hall
  have hbase := base_eval (t := t) hid haccs
  have hdisp := dispatch_unrecognized (t := t)
    (a := { trace_id := t, type := b.btype, action_id := idv,
            tx_hashes := pySetList (b.event_nodes.map (fun n => n.get_tx_hash)),
            start_lt := b.min_lt, end_lt := b.max_lt, start_utime := b.min_utime,
            end_utime := b.max_utime, success := !b.failed,
            accounts := accs.map some }) hdata
  obtain ⟨r, hasm⟩ := @assemble_ok_exists b t
    { trace_id := t, type := b.btype, action_id := idv,
      tx_hashes := pySetList (b.event_nodes.map (fun n => n.get_tx_hash)),
      start_lt := b.min_lt, end_lt := b.max_lt, start_utime := b.min_utime,
      end_utime := b.max_utime, success := !b.failed,
      accounts := accs.map some }
    [unknownBlockWarning b t] hinit
  cases r with
  | mk afin logsfin =>
      have hrun : block_to_action b t = Except.ok (afin, logsfin) := by
        unfold block_to_action
        simp only [bind, Except.bind]
        rw [hbase]
        simp only
        rw [hdisp]
        simp only
        exact hasm
      obtain ⟨htx, -, -, -, htr, hty, hidp, hslt, helt, hsut, heut, hsuc, hsrc, hss,
        hdst, hds, hass, hass2, hamt, hval, hopc, httd, hjtd, hjsd, hstd⟩ :=
        assembleAction_ok hasm
      have hlog := assembleAction_logs hasm (unknownBlockWarning b t) (by simp)
      rw [hrun]
      unfold outAction outLogs
      simp only [Option.map]
      refine ⟨?_, ?_, ?_, ?_, ?_, ?_, ?_, ?_, ?_, ?_, ?_, ?_, ?_, ?_, ?_, ?_, ?_, ?_,
        ?_, ?_, ?_, ?_, ?_⟩
      · rw [hsrc]
      · rw [hss]
      · rw [hdst]
      · rw [hds]
      · rw [hass]
      · rw [hass2]
      · rw [hamt]
      · rw [hval]
      · rw [hopc]
      · rw [httd]
      · rw [hjtd]
      · rw [hjsd]
      · rw [hstd]
      · rw [htr]
      · rw [hty]
      · rw [hidp, hid]
        rfl
      · rw [htx]
      · rw [hslt]
      · rw [helt]
      · rw [hsut]
      · rw [heut]
      · rw [hsuc]
      · simp [hlog]

/-- A well-formed block whose payload carries an operation type outside the
dispatcher's case list. -/
def sampleUnknownBlock : Block :=
  { btype := "mystery_op", event_nodes := [sampleNode1, sampleNode2],
    data := BlockData.unrecognized,
    min_lt := 5, max_lt := 10, min_utime := 1, max_utime := 2, failed := false,
    initiating_event_node := some sampleInitNode }

/-- Witness for C6 on a concrete unrecognized-type block. -/
theorem c6_unrecognized_fallback_witness :
    wellFormedBlock sampleUnknownBlock = true ∧
    sampleUnknownBlock.data = BlockData.unrecognized ∧
    ((outAction (block_to_action sampleUnknownBlock "TR")).map Action.source = some none ∧
     (outAction (block_to_action sampleUnknownBlock "TR")).map Action.source_secondary =
       some none ∧
     (outAction (block_to_action sampleUnknownBlock "TR")).map Action.destination =
       some none ∧
     (outAction (block_to_action sampleUnknownBlock "TR")).map Action.destination_secondary =
       some none ∧
     (outAction (block_to_action sampleUnknownBlock "TR")).map Action.asset = some none ∧
     (outAction (block_to_action sampleUnknownBlock "TR")).map Action.asset2 = some none ∧
     (outAction (block_to_action sampleUnknownBlock "TR")).map Action.amount = some none ∧
     (outAction (block_to_action sampleUnknownBlock "TR")).map Action.value = some none ∧
     (outAction (block_to_action sampleUnknownBlock "TR")).map Action.opcode = some none ∧
     (outAction (block_to_action sampleUnknownBlock "TR")).map Action.ton_transfer_data =
       some none ∧
     (outAction (block_to_action sampleUnknownBlock "TR")).map Action.jetton_transfer_data =
       some none ∧
     (outAction (block_to_action sampleUnknownBlock "TR")).map Action.jetton_swap_data =
       some none ∧
     (outAction (block_to_action sampleUnknownBlock "TR")).map Action.staking_data =
       some none ∧
     (outAction (block_to_action sampleUnknownBlock "TR")).map Action.trace_id =
       some "TR" ∧
     (outAction (block_to_action sampleUnknownBlock "TR")).map Action.type =
       some sampleUnknownBlock.btype ∧
     (outAction (block_to_action sampleUnknownBlock "TR")).map Action.action_id =
       okStr (_calc_action_id sampleUnknownBlock) ∧
     (outAction (block_to_action sampleUnknownBlock "TR")).map Action.tx_hashes =
       some (pySetList (sampleUnknownBlock.event_nodes.map (fun n => n.get_tx_hash))) ∧
     (outAction (block_to_action sampleUnknownBlock "TR")).map Action.start_lt =
       some sampleUnknownBlock.min_lt ∧
     (outAction (block_to_action sampleUnknownBlock "TR")).map Action.end_lt =
       some sampleUnknownBlock.max_lt ∧
     (outAction (block_to_action sampleUnknownBlock "TR")).map Action.start_utime =
       some sampleUnknownBlock.min_utime ∧
     (outAction (block_to_action sampleUnknownBlock "TR")).map Action.end_utime =
       some sampleUnknownBlock.max_utime ∧
     (outAction (block_to_action sampleUnknownBlock "TR")).map Action.success =
       some (!sampleUnknownBlock.failed) ∧
     (outLogs (block_to_action sampleUnknownBlock "TR")).map
       (fun ls => decide (unknownBlockWarning sampleUnknownBlock "TR" ∈ ls)) = some true) :=
  ⟨by decide, rfl, c6_unrecognized_fallback sampleUnknownBlock "TR" (by decide) rfl⟩

/-! ## C7: generic staking-pool withdrawals -/

/-- C7: for a generic (nominator) staking-pool withdrawal block, an absent
realized payout amount yields type `stake_withdrawal_request`, a present one
yields type `stake_withdrawal` with `amount` equal to that payout, and the
staking payload tags the `nominator` provider in both cases. -/
theorem c7_nominator_withdraw (b : Block) (t : String) (d : NominatorPoolWithdrawData)
    (a : Action) (logs : List String)
    (hdata : b.data = BlockData.nominatorPoolWithdrawRequest d)
    (h : block_to_action b t = Except.ok (a, logs)) :
    a.type = (match d.payout_amount with
              | none => "stake_withdrawal_request"
              | some _ => "stake_withdrawal") ∧
    a.amount = d.payout_amount.map Amount.value ∧
    a.staking_data = some { provider := "nominator" } := by
  unfold block_to_action at h
  simp only [bind, Except.bind] at h
  cases hb : _base_block_to_action b t with
  | error e => rw [hb] at h; cases h
  | ok a0 =>
      rw [hb] at h
      simp only at h
      have hdisp : dispatchFill b t a0 =
          Except.ok (_fill_nominator_pool_withdraw_request_action d a0, []) := by
        unfold dispatchFill
        rw [hdata]
      rw [hdisp] at h
      simp only at h
      obtain ⟨-, -, -, -, -, hty, -, -, -, -, -, -, -, -, -, -, -, -, hamt, -, -, -, -, -,
        hstk⟩ := assembleAction_ok h
      obtain ⟨-, -, -, -, -, -, -, -, -, -, -, -, -, -, -, hamt0, -⟩ := base_ok hb
      rw [hty, hamt, hstk]
      unfold _fill_nominator_pool_withdraw_request_action
      cases hp : d.payout_amount with
      | none => exact ⟨rfl, by simp [hamt0], rfl⟩
      | some amt => exact ⟨rfl, rfl, rfl⟩

/-- A completed nominator-pool withdrawal block carrying a realized payout. -/
def sampleNomBlock : Block :=
  { btype := "stake_withdrawal_request", event_nodes := [sampleNode1],
    data := BlockData.nominatorPoolWithdrawRequest
      { source := { addr := "NSRC" }, pool := { addr := "NPOOL" },
        payout_amount := some { value := 250 } },
    min_lt := 10, max_lt := 10, min_utime := 1, max_utime := 1, failed := false,
    initiating_event_node := none }

/-- The record and diagnostics produced on the sample nominator block. -/
def sampleNomResult : Action × List String :=
  match block_to_action sampleNomBlock "TR" with
  | Except.ok r => r
  | Except.error _ =>
      ({ trace_id := "", type := "", action_id := "", tx_hashes := [], start_lt := 0,
         end_lt := 0, start_utime := 0, end_utime := 0, success := false }, [])

/-- Witness for C7: the payout-present shape becomes a completed withdrawal of
exactly the payout amount, tagged with the nominator provider. -/
theorem c7_nominator_withdraw_witness :
    block_to_action sampleNomBlock "TR" =
      Except.ok (sampleNomResult.1, sampleNomResult.2) ∧
    (sampleNomResult.1.type =
      (match (some { value := 250 } : Option Amount) with
       | none => "stake_withdrawal_request"
       | some _ => "stake_withdrawal") ∧
     sampleNomResult.1.amount = (some { value := 250 } : Option Amount).map Amount.value ∧
     sampleNomResult.1.staking_data = some { provider := "nominator" }) :=
  ⟨rfl, c7_nominator_withdraw sampleNomBlock "TR"
    { source := { addr := "NSRC" }, pool := { addr := "NPOOL" },
      payout_amount := some { value := 250 } }
    sampleNomResult.1 sampleNomResult.2 rfl rfl⟩

/-! ## C8: comment handling in transfer payloads -/

/-- The native-transfer fill stores the NUL-stripped string comment and the
encryption flag, independently of that flag's value. -/
theorem ton_fill_payload {b : Block} {d : TonTransferData} {a a' : Action}
    (h : _fill_ton_transfer_action b d a = Except.ok a') :
    a'.ton_transfer_data =
      some { content := d.comment.map stripNulls, encrypted := d.encrypted } := by
  unfold _fill_ton_transfer_action at h
  repeat' split at h
  all_goals first
    | (injection h with h1; subst h1; rfl)
    | cases h

/-- The fungible-token fill's stored comment: base64 of the raw bytes when the
encrypted flag is set, otherwise the NUL-stripped UTF-8 decoding. -/
theorem jetton_fill_comment {d : JettonTransferData} {a a' : Action}
    (h : _fill_jetton_transfer_action d a = Except.ok a') :
    (a'.jetton_transfer_data).map JettonTransferPayload.comment =
      some (match d.comment with
            | none => none
            | some bs =>
                if d.encrypted_comment then some (base64Encode bs)
                else
                  match utf8Decode bs with
                  | some s => some (stripNulls s)
                  | none => none) := by
  unfold _fill_jetton_transfer_action at h
  simp only [bind, Except.bind, pure, Except.pure] at h
  repeat' split at h
  all_goals first
    | (injection h with h1; subst h1; simp_all)
    | cases h

/-- A native transfer whose string comment is flagged encrypted: the stored
comment is the string itself, not a base64 rendering of its bytes. -/
def tonEncBlock : Block :=
  { btype := "ton_transfer", event_nodes := [sampleNode1],
    data := BlockData.tonTransfer
      { value := 5, source := { addr := "S" }, destination := some { addr := "D" },
        comment := some "ab", encrypted := true },
    min_lt := 10, max_lt := 10, min_utime := 1, max_utime := 1, failed := false,
    initiating_event_node := none }

/-- C8 (counterexample): on a native-currency transfer block with a non-null
comment `"ab"` and the encrypted flag set, the stored comment is `"ab"` itself
— not the base64 encoding of the raw comment bytes the claim requires for
every encrypted transfer comment. -/
theorem c8_comment_counterexample :
    (outAction (block_to_action tonEncBlock "TR")).map Action.ton_transfer_data =
      some (some { content := some "ab", encrypted := true }) ∧
    some "ab" ≠ some (base64Encode (utf8Encode "ab")) :=
  ⟨rfl, by decide⟩

/-- C8 (amended): comment handling per transfer family.  A native-currency
transfer stores its string comment with embedded NUL characters removed and
records the encryption flag separately, regardless of that flag; a
fungible-token transfer stores the base64 encoding of the raw comment bytes
when the comment is encrypted (no UTF-8 decoding applied), and the NUL-stripped
UTF-8 decoding of the bytes when it is not. -/
theorem c8_comment_handling_amended :
    (∀ (b : Block) (t : String) (d : TonTransferData) (a : Action) (logs : List String),
      b.data = BlockData.tonTransfer d →
      block_to_action b t = Except.ok (a, logs) →
      a.ton_transfer_data =
        some { content := d.comment.map stripNulls, encrypted := d.encrypted }) ∧
    (∀ (b : Block) (t : String) (d : JettonTransferData) (a : Action) (logs : List String)
      (bs : List Nat),
      b.data = BlockData.jettonTransfer d →
      d.comment = some bs → d.encrypted_comment = true →
      block_to_action b t = Except.ok (a, logs) →
      (a.jetton_transfer_data).map JettonTransferPayload.comment =
        some (some (base64Encode bs))) ∧
    (∀ (b : Block) (t : String) (d : JettonTransferData) (a : Action) (logs : List String)
      (bs : List Nat) (s : String),
      b.data = BlockData.jettonTransfer d →
      d.comment = some bs → d.encrypted_comment = false → utf8Decode bs = some s →
      block_to_action b t = Except.ok (a, logs) →
      (a.jetton_transfer_data).map JettonTransferPayload.comment =
        some (some (stripNulls s))) := by
  refine ⟨?_, ?_, ?_⟩
  · intro b t d a logs hdata h
    unfold block_to_action at h
    simp only [bind, Except.bind] at h
    cases hb : _base_block_to_action b t with
    | error e => rw [hb] at h; cases h
    | ok a0 =>
        rw [hb] at h
        simp only at h
        have hdisp : dispatchFill b t a0 =
            Except.map (fun a => (a, [])) (_fill_ton_transfer_action b d a0) := by
          unfold dispatchFill
          rw [hdata]
        rw [hdisp] at h
        cases hf : _fill_ton_transfer_action b d a0 with
        | error e => rw [hf] at h; cases h
        | ok a1 =>
            rw [hf] at h
            simp only [Except.map] at h
            obtain ⟨-, -, -, -, -, -, -, -, -, -, -, -, -, -, -, -, -, -, -, -, -, httd,
              -⟩ := assembleAction_ok h
            rw [httd, ton_fill_payload hf]
  · intro b t d a logs bs hdata hcm henc h
    unfold block_to_action at h
    simp only [bind, Except.bind] at h
    cases hb : _base_block_to_action b t with
    | error e => rw [hb] at h; cases h
    | ok a0 =>
        rw [hb] at h
        simp only at h
        have hdisp : dispatchFill b t a0 =
            Except.map (fun a => (a, [])) (_fill_jetton_transfer_action d a0) := by
          unfold dispatchFill
          rw [hdata]
        rw [hdisp] at h
        cases hf : _fill_jetton_transfer_action d a0 with
        | error e => rw [hf] at h; cases h
        | ok a1 =>
            rw [hf] at h
            simp only [Except.map] at h
            obtain ⟨-, -, -, -, -, -, -, -, -, -, -, -, -, -, -, -, -, -, -, -, -, -,
              hjtd, -⟩ := assembleAction_ok h
            have hcom := jetton_fill_comment hf
            rw [hcm, henc] at hcom
            simp only [if_true] at hcom
            rw [hjtd]
            exact hcom
  · intro b t d a logs bs s hdata hcm henc hdec h
    unfold block_to_action at h
    simp only [bind, Except.bind] at h
    cases hb : _base_block_to_action b t with
    | error e => rw [hb] at h; cases h
    | ok a0 =>
        rw [hb] at h
        simp only at h
        have hdisp : dispatchFill b t a0 =
            Except.map (fun a => (a, [])) (_fill_jetton_transfer_action d a0) := by
          unfold dispatchFill
          rw [hdata]
        rw [hdisp] at h
        cases hf : _fill_jetton_transfer_action d a0 with
        | error e => rw [hf] at h; cases h
        | ok a1 =>
            rw [hf] at h
            simp only [Except.map] at h
            obtain ⟨-, -, -, -, -, -, -, -, -, -, -, -, -, -, -, -, -, -, -, -, -, -,
              hjtd, -⟩ := assembleAction_ok h
            have hcom := jetton_fill_comment hf
            rw [hcm, henc] at hcom
            simp only at hcom
            simp only [Bool.false_eq_true, if_false] at hcom
            rw [hdec] at hcom
            simp only at hcom
            rw [hjtd]
            exact hcom

/-- A fungible-token transfer block with raw encrypted comment bytes `[1, 2]`. -/
def jettonEncBlock : Block :=
  { btype := "jetton_transfer", event_nodes := [sampleNode1],
    data := BlockData.jettonTransfer
      { sender := { addr := "JS" }, sender_wallet := { addr := "JSW" },
        receiver := { addr := "JR" }, receiver_wallet := none,
        amount := { value := 10 }, asset := none,
        comment := some [1, 2], encrypted_comment := true, query_id := 1,
        response_address := none, forward_amount := { value := 0 },
        custom_payload := none, forward_payload := none },
    min_lt := 10, max_lt := 10, min_utime := 1, max_utime := 1, failed := false,
    initiating_event_node := none }

/-- The same transfer shape with a plaintext comment whose bytes decode to a
string with an embedded NUL character. -/
def jettonPlainBlock : Block :=
  { btype := "jetton_transfer", event_nodes := [sampleNode1],
    data := BlockData.jettonTransfer
      { sender := { addr := "JS" }, sender_wallet := { addr := "JSW" },
        receiver := { addr := "JR" }, receiver_wallet := none,
        amount := { value := 10 }, asset := none,
        comment := some [104, 0, 105], encrypted_comment := false, query_id := 1,
        response_address := none, forward_amount := { value := 0 },
        custom_payload := none, forward_payload := none },
    min_lt := 10, max_lt := 10, min_utime := 1, max_utime := 1, failed := false,
    initiating_event_node := none }

/-- Fallback record for the result extractors. -/
def emptyActionPair : Action × List String :=
  ({ trace_id := "", type := "", action_id := "", tx_hashes := [], start_lt := 0,
     end_lt := 0, start_utime := 0, end_utime := 0, success := false }, [])

def tonEncResult : Action × List String :=
  match block_to_action tonEncBlock "TR" with
  | Except.ok r => r
  | Except.error _ => emptyActionPair

def jettonEncResult : Action × List String :=
  match block_to_action jettonEncBlock "TR" with
  | Except.ok r => r
  | Except.error _ => emptyActionPair

def jettonPlainResult : Action × List String :=
  match block_to_action jettonPlainBlock "TR" with
  | Except.ok r => r
  | Except.error _ => emptyActionPair

/-- Witness for the amended C8, one concrete instance per conjunct: the
NUL-stripped native comment, the base64-encoded encrypted token comment for
raw bytes `[1, 2]`, and the NUL-stripped decoding of a plaintext token
comment. -/
theorem c8_comment_handling_amended_witness :
    (block_to_action tonEncBlock "TR" = Except.ok (tonEncResult.1, tonEncResult.2) ∧
     tonEncResult.1.ton_transfer_data =
       some { content := (some "ab" : Option String).map stripNulls, encrypted := true }) ∧
    (block_to_action jettonEncBlock "TR" =
       Except.ok (jettonEncResult.1, jettonEncResult.2) ∧
     (jettonEncResult.1.jetton_transfer_data).map JettonTransferPayload.comment =
       some (some (base64Encode [1, 2]))) ∧
    (block_to_action jettonPlainBlock "TR" =
       Except.ok (jettonPlainResult.1, jettonPlainResult.2) ∧
     utf8Decode [104, 0, 105] = some (String.mk [Char.ofNat 104, Char.ofNat 0, Char.ofNat 105]) ∧
     (jettonPlainResult.1.jetton_transfer_data).map JettonTransferPayload.comment =
       some (some (stripNulls (String.mk [Char.ofNat 104, Char.ofNat 0, Char.ofNat 105])))) :=
  ⟨⟨rfl, c8_comment_handling_amended.1 tonEncBlock "TR"
      { value := 5, source := { addr := "S" }, destination := some { addr := "D" },
        comment := some "ab", encrypted := true }
      tonEncResult.1 tonEncResult.2 rfl rfl⟩,
   ⟨rfl, c8_comment_handling_amended.2.1 jettonEncBlock "TR"
      { sender := { addr := "JS" }, sender_wallet := { addr := "JSW" },
        receiver := { addr := "JR" }, receiver_wallet := none,
        amount := { value := 10 }, asset := none,
        comment := some [1, 2], encrypted_comment := true, query_id := 1,
        response_address := none, forward_amount := { value := 0 },
        custom_payload := none, forward_payload := none }
      jettonEncResult.1 jettonEncResult.2 [1, 2] rfl rfl rfl rfl⟩,
   ⟨rfl, by decide, c8_comment_handling_amended.2.2 jettonPlainBlock "TR"
      { sender := { addr := "JS" }, sender_wallet := { addr := "JSW" },
        receiver := { addr := "JR" }, receiver_wallet := none,
        amount := { value := 10 }, asset := none,
        comment := some [104, 0, 105], encrypted_comment := false, query_id := 1,
        response_address := none, forward_amount := { value := 0 },
        custom_payload := none, forward_payload := none }
      jettonPlainResult.1 jettonPlainResult.2 [104, 0, 105]
      (String.mk [Char.ofNat 104, Char.ofNat 0, Char.ofNat 105]) rfl rfl rfl (by decide) rfl⟩⟩

/-! ## C9: swap asset defaults and overrides -/

/-- The asset fields a successful swap fill leaves on the record: leg-derived
defaults, replaced by the payload's explicit source/destination assets for the
`stonfi_v2` variant, with a present non-null `destination_asset` key winning in
every variant. -/
theorem swap_fill_assets {d : JettonSwapData} {a a' : Action}
    (h : _fill_jetton_swap_action d a = Except.ok a') :
    a'.asset = (if d.dex = "stonfi_v2" then _addr (d.source_asset.getD none)
                else _addr d.dex_incoming_transfer.asset) ∧
    a'.asset2 = (if d.dex = "stonfi_v2" then _addr (d.destination_asset.getD none)
                 else match d.destination_asset with
                      | some (some v) => _addr (some v)
                      | _ => _addr d.dex_outgoing_transfer.asset) := by
  unfold _fill_jetton_swap_action at h
  simp only [bind, Except.bind, pure, Except.pure] at h
  repeat' split at h
  all_goals first
    | (injection h with h1; subst h1; simp_all [resolveDexTransfer])
    | cases h

/-- C9: in every produced swap record, `asset`/`asset2` default to the resolved
assets of the incoming and outgoing legs and are overridden by the payload's
explicit source/destination asset fields when the protocol variant reports
them — the more specific fields win over the leg-derived defaults. -/
theorem c9_swap_asset_overrides (b : Block) (t : String) (d : JettonSwapData)
    (a : Action) (logs : List String)
    (hdata : b.data = BlockData.jettonSwap d)
    (h : block_to_action b t = Except.ok (a, logs)) :
    a.asset = (if d.dex = "stonfi_v2" then _addr (d.source_asset.getD none)
               else _addr d.dex_incoming_transfer.asset) ∧
    a.asset2 = (if d.dex = "stonfi_v2" then _addr (d.destination_asset.getD none)
                else match d.destination_asset with
                     | some (some v) => _addr (some v)
                     | _ => _addr d.dex_outgoing_transfer.asset) := by
  unfold block_to_action at h
  simp only [bind, Except.bind] at h
  cases hb : _base_block_to_action b t with
  | error e => rw [hb] at h; cases h
  | ok a0 =>
      rw [hb] at h
      simp only at h
      have hdisp : dispatchFill b t a0 =
          Except.map (fun a => (a, [])) (_fill_jetton_swap_action d a0) := by
        unfold dispatchFill
        rw [hdata]
      rw [hdisp] at h
      cases hf : _fill_jetton_swap_action d a0 with
      | error e => rw [hf] at h; cases h
      | ok a1 =>
          rw [hf] at h
          simp only [Except.map] at h
          obtain ⟨-, -, -, -, -, -, -, -, -, -, -, -, -, -, -, -, hass, hass2, -⟩ :=
            assembleAction_ok h
          obtain ⟨hfasset, hfasset2⟩ := swap_fill_assets hf
          exact ⟨by rw [hass, hfasset], by rw [hass2, hfasset2]⟩

/-- A swap on a non-`stonfi_v2` variant whose payload reports an explicit
non-null destination asset, overriding the outgoing leg's asset. -/
def sampleSwapBlock : Block :=
  { btype := "jetton_swap", event_nodes := [sampleNode1],
    data := BlockData.jettonSwap
      { dex := "dedust",
        sender := some (AddrRef.account { addr := "SW" }),
        dex_incoming_transfer :=
          { amount := { value := 3 },
            source := some (AddrRef.account { addr := "IS" }),
            source_jetton_wallet := none, destination := none,
            destination_jetton_wallet := none,
            asset := some (AddrRef.asset
              { is_ton := false, jetton_address := some { addr := "AIN" } }) },
        dex_outgoing_transfer :=
          { amount := { value := 4 },
            source := none, source_jetton_wallet := none,
            destination := some (AddrRef.account { addr := "OD" }),
            destination_jetton_wallet := none,
            asset := some (AddrRef.asset
              { is_ton := false, jetton_address := some { addr := "AOUT" } }) },
        source_asset := none,
        destination_asset := some (some (AddrRef.account { addr := "OVR" })),
        destination_wallet := none },
    min_lt := 10, max_lt := 10, min_utime := 1, max_utime := 1, failed := false,
    initiating_event_node := none }

def sampleSwapResult : Action × List String :=
  match block_to_action sampleSwapBlock "TR" with
  | Except.ok r => r
  | Except.error _ => emptyActionPair

/-- Witness for C9: the incoming leg's asset is kept as the default while the
explicit destination asset overrides the outgoing leg's. -/
theorem c9_swap_asset_overrides_witness :
    block_to_action sampleSwapBlock "TR" =
      Except.ok (sampleSwapResult.1, sampleSwapResult.2) ∧
    (sampleSwapResult.1.asset =
       (if ("dedust" : String) = "stonfi_v2" then
          _addr ((none : Option (Option AddrRef)).getD none)
        else _addr (some (AddrRef.asset
          { is_ton := false, jetton_address := some { addr := "AIN" } }))) ∧
     sampleSwapResult.1.asset2 =
       (if ("dedust" : String) = "stonfi_v2" then
          _addr ((some (some (AddrRef.account { addr := "OVR" })) :
            Option (Option AddrRef)).getD none)
        else match (some (some (AddrRef.account { addr := "OVR" })) :
                     Option (Option AddrRef)) with
             | some (some v) => _addr (some v)
             | _ => _addr (some (AddrRef.asset
                 { is_ton := false, jetton_address := some { addr := "AOUT" } })))) := by
  refine ⟨rfl, ?_⟩
  exact c9_swap_asset_overrides sampleSwapBlock "TR"
    { dex := "dedust",
      sender := some (AddrRef.account { addr := "SW" }),
      dex_incoming_transfer :=
        { amount := { value := 3 },
          source := some (AddrRef.account { addr := "IS" }),
          source_jetton_wallet := none, destination := none,
          destination_jetton_wallet := none,
          asset := some (AddrRef.asset
            { is_ton := false, jetton_address := some { addr := "AIN" } }) },
      dex_outgoing_transfer :=
        { amount := { value := 4 },
          source := none, source_jetton_wallet := none,
          destination := some (AddrRef.account { addr := "OD" }),
          destination_jetton_wallet := none,
          asset := some (AddrRef.asset
            { is_ton := false, jetton_address := some { addr := "AOUT" } }) },
      source_asset := none,
      destination_asset := some (some (AddrRef.account { addr := "OVR" })),
      destination_wallet := none }
    sampleSwapResult.1 sampleSwapResult.2 rfl rfl

end Indexer
